import Mathlib

/-!
Shallow embedding of the dialogue-flow execution engine of the MultiRoleChat
backend (`src/backend/app`), covering the services and models referenced by
the frozen claims:

* `app/services/flow_engine_service.py` (`FlowEngineService`)
* `app/services/session_service.py` (`SessionService` and its error classes)
* `app/services/flow_service.py` (`FlowTemplateService._validate_steps_data`)
* `app/models/flow.py`, `app/models/session.py`, `app/models/message.py`,
  `app/models/role.py`, `app/models/step_execution_log.py`

The SQLAlchemy-backed persistent store is modelled as explicit lists of rows
held in primary-key (insertion) order; `Query.get` is `List.find?` on the id,
`filter_by(...).first()` takes the first row in insertion order, and
`order_by(col)` is a stable insertion sort on the column.  Timestamps
(`datetime.utcnow()`) are modelled as a natural-number clock passed in by the
caller.  Python/JSON dynamic values (`json.loads` results, config blobs) are
modelled by the inductive type `PyVal`, and `json.loads` by the executable
parser `jsonLoads` (restricted to JSON without floats or `\u` escapes, which
no configuration handled by the engine relies on).
-/

namespace MultiRoleChat

/-- Model of a dynamically typed Python/JSON value: `None`, `bool`, `int`,
`str`, `list`, `dict` (dicts keep keys in insertion order, keys unique). -/
inductive PyVal where
  | none : PyVal
  | bool (b : Bool) : PyVal
  | int (n : Int) : PyVal
  | str (s : String) : PyVal
  | list (xs : List PyVal) : PyVal
  | dict (kvs : List (String × PyVal)) : PyVal

/-- Python `dict.get(key)`: value of the first (unique) matching key. -/
def pyDictGet (kvs : List (String × PyVal)) (k : String) : Option PyVal :=
  (kvs.find? (fun kv => kv.1 == k)).map (fun kv => kv.2)

/-- Python truthiness for the modelled values: `None`, `False`, `0`, `""`,
`[]` and `{}` are falsy, everything else truthy. -/
def pyTruthy : PyVal → Bool
  | .none => false
  | .bool b => b
  | .int n => n != 0
  | .str s => s != ""
  | .list xs => !xs.isEmpty
  | .dict kvs => !kvs.isEmpty

/-- The whitespace characters stripped by Python's `str.strip()`. -/
def isPySpace (c : Char) : Bool :=
  c == ' ' || c == '\t' || c == '\n' || c == '\r' || c == '\x0b' || c == '\x0c'

/-- Python `str.strip()` on the character list. -/
def pyStripList (cs : List Char) : List Char :=
  ((cs.dropWhile isPySpace).reverse.dropWhile isPySpace).reverse

/-- Python `str.strip()`. -/
def pyStrip (s : String) : String :=
  ⟨pyStripList s.data⟩

/-- JSON whitespace skipping. -/
def skipWs (cs : List Char) : List Char :=
  cs.dropWhile (fun c => c == ' ' || c == '\t' || c == '\n' || c == '\r')

/-- Parse a run of decimal digits, returning the value and the rest. -/
def parseDigits : List Char → Option (Nat × List Char)
  | c :: rest =>
    if c.isDigit then
      let rec go (acc : Nat) : List Char → Nat × List Char
        | d :: ds => if d.isDigit then go (acc * 10 + (d.toNat - '0'.toNat)) ds
                     else (acc, d :: ds)
        | [] => (acc, [])
      some (go (c.toNat - '0'.toNat) rest)
    else Option.none
  | [] => Option.none

/-- Parse the body of a JSON string literal (after the opening quote),
supporting the `\"`, `\\`, `\/`, `\n`, `\t`, `\r`, `\b`, `\f` escapes.
Other escapes (notably `\uXXXX`) make the parse fail; the configurations
and generated contents the engine handles do not use them. -/
def parseStringBody : Nat → List Char → Option (String × List Char)
  | 0, _ => Option.none
  | _ + 1, [] => Option.none
  | fuel + 1, c :: rest =>
    if c == '"' then some ("", rest)
    else if c == '\\' then
      match rest with
      | e :: rest2 =>
        let esc : Option Char :=
          if e == '"' then some '"'
          else if e == '\\' then some '\\'
          else if e == '/' then some '/'
          else if e == 'n' then some '\n'
          else if e == 't' then some '\t'
          else if e == 'r' then some '\r'
          else if e == 'b' then some '\x08'
          else if e == 'f' then some '\x0c'
          else Option.none
        match esc with
        | some ch =>
          match parseStringBody fuel rest2 with
          | some (s, rem) => some (⟨ch :: s.data⟩, rem)
          | Option.none => Option.none
        | Option.none => Option.none
      | [] => Option.none
    else
      match parseStringBody fuel rest with
      | some (s, rem) => some (⟨c :: s.data⟩, rem)
      | Option.none => Option.none

mutual

/-- Fuel-based recursive-descent parser for one JSON value. -/
def parseVal : Nat → List Char → Option (PyVal × List Char)
  | 0, _ => Option.none
  | fuel + 1, cs =>
    match skipWs cs with
    | [] => Option.none
    | c :: rest =>
      if c == 'n' then
        match rest with
        | 'u' :: 'l' :: 'l' :: rem => some (.none, rem)
        | _ => Option.none
      else if c == 't' then
        match rest with
        | 'r' :: 'u' :: 'e' :: rem => some (.bool true, rem)
        | _ => Option.none
      else if c == 'f' then
        match rest with
        | 'a' :: 'l' :: 's' :: 'e' :: rem => some (.bool false, rem)
        | _ => Option.none
      else if c == '"' then
        match parseStringBody fuel rest with
        | some (s, rem) => some (.str s, rem)
        | Option.none => Option.none
      else if c == '-' then
        match parseDigits rest with
        | some (n, rem) =>
          -- a following '.', 'e' or 'E' would denote a float, outside the model
          match rem with
          | d :: _ => if d == '.' || d == 'e' || d == 'E' then Option.none
                      else some (.int (-(n : Int)), rem)
          | [] => some (.int (-(n : Int)), rem)
        | Option.none => Option.none
      else if c.isDigit then
        match parseDigits (c :: rest) with
        | some (n, rem) =>
          match rem with
          | d :: _ => if d == '.' || d == 'e' || d == 'E' then Option.none
                      else some (.int (n : Int), rem)
          | [] => some (.int (n : Int), rem)
        | Option.none => Option.none
      else if c == '[' then
        match skipWs rest with
        | ']' :: rem => some (.list [], rem)
        | _ =>
          match parseListItems fuel rest with
          | some (xs, rem) => some (.list xs, rem)
          | Option.none => Option.none
      else if c == '{' then
        match skipWs rest with
        | '}' :: rem => some (.dict [], rem)
        | _ =>
          match parseDictItems fuel rest with
          | some (kvs, rem) => some (.dict kvs, rem)
          | Option.none => Option.none
      else Option.none

/-- Parse comma-separated JSON array items up to the closing bracket. -/
def parseListItems : Nat → List Char → Option (List PyVal × List Char)
  | 0, _ => Option.none
  | fuel + 1, cs =>
    match parseVal fuel cs with
    | some (v, rem) =>
      match skipWs rem with
      | ',' :: rem2 =>
        match parseListItems fuel rem2 with
        | some (xs, rem3) => some (v :: xs, rem3)
        | Option.none => Option.none
      | ']' :: rem2 => some ([v], rem2)
      | _ => Option.none
    | Option.none => Option.none

/-- Parse comma-separated JSON object entries up to the closing brace. -/
def parseDictItems : Nat → List Char → Option (List (String × PyVal) × List Char)
  | 0, _ => Option.none
  | fuel + 1, cs =>
    match skipWs cs with
    | '"' :: rest =>
      match parseStringBody fuel rest with
      | some (k, rem) =>
        match skipWs rem with
        | ':' :: rem2 =>
          match parseVal fuel rem2 with
          | some (v, rem3) =>
            match skipWs rem3 with
            | ',' :: rem4 =>
              match parseDictItems fuel rem4 with
              | some (kvs, rem5) => some ((k, v) :: kvs, rem5)
              | Option.none => Option.none
            | '}' :: rem4 => some ([(k, v)], rem4)
            | _ => Option.none
          | Option.none => Option.none
        | _ => Option.none
      | Option.none => Option.none
    | _ => Option.none

end

/-- Model of Python `json.loads`: parses a complete JSON document (no floats,
no `\u` escapes), requiring only whitespace after the value. Returns `none`
where `json.loads` raises `json.JSONDecodeError`. -/
def jsonLoads (s : String) : Option PyVal :=
  match parseVal (s.length + 1) s.data with
  | some (v, rem) => if (skipWs rem).isEmpty then some v else Option.none
  | Option.none => Option.none

/-- Quote and escape a string as a JSON string literal; only `"` and `\`
need escaping for the contents the engine produces. -/
def jsonQuote (s : String) : String :=
  "\"" ++ ⟨s.data.flatMap (fun c =>
    if c == '"' then ['\\', '"'] else if c == '\\' then ['\\', '\\'] else [c])⟩ ++ "\""

mutual

/-- Serialize a modelled value back to JSON text (`json.dumps` with
`ensure_ascii=False`, default separators). -/
def jsonDumps : PyVal → String
  | .none => "null"
  | .bool true => "true"
  | .bool false => "false"
  | .int n => toString n
  | .str s => jsonQuote s
  | .list xs => "[" ++ jsonDumpsList xs ++ "]"
  | .dict kvs => "\x7b" ++ jsonDumpsKVs kvs ++ "\x7d"

/-- Comma-separated serialization of array items. -/
def jsonDumpsList : List PyVal → String
  | [] => ""
  | [x] => jsonDumps x
  | x :: y :: xs => jsonDumps x ++ ", " ++ jsonDumpsList (y :: xs)

/-- Comma-separated serialization of object entries. -/
def jsonDumpsKVs : List (String × PyVal) → String
  | [] => ""
  | [(k, v)] => jsonQuote k ++ ": " ++ jsonDumps v
  | (k, v) :: kv :: kvs => jsonQuote k ++ ": " ++ jsonDumps v ++ ", " ++ jsonDumpsKVs (kv :: kvs)

end

/-! ## Data model (`app/models/*.py`)

Each structure mirrors one SQLAlchemy model; `Option` marks nullable columns.
`DateTime` columns are naturals (an abstract monotone clock). -/

/-- `app/models/role.py` `Role`: `name` and `prompt` are `nullable=False`. -/
structure Role where
  id : Nat
  name : String
  prompt : String
deriving Repr, DecidableEq

/-- `app/models/flow.py` `FlowTemplate` (steps live in their own table). -/
structure FlowTemplate where
  id : Nat
  name : String
  topic : Option String
  type : String
  description : Option String
  version : String
  is_active : Bool
  termination_config : Option String
  created_at : Nat
  updated_at : Nat
deriving Repr, DecidableEq

/-- `app/models/flow.py` `FlowStep`.  `context_scope` is a `nullable=False`
`Text` column, so on a database-loaded step the raw attribute is always a
string; `context_param`, `logic_config`, `loop_config`, `condition_config`
are nullable `Text` columns holding JSON text. -/
structure FlowStep where
  id : Nat
  flow_template_id : Nat
  order : Int
  speaker_role_ref : String
  target_role_ref : Option String
  task_type : String
  context_scope : String
  context_param : Option String
  logic_config : Option String
  loop_config : Option String
  condition_config : Option String
  next_step_id : Option Nat
  description : Option String
deriving Repr, DecidableEq

/-- `app/models/session.py` `Session`. -/
structure Session where
  id : Nat
  user_id : Option Nat
  topic : String
  flow_template_id : Nat
  flow_snapshot : Option String
  roles_snapshot : Option String
  status : String
  current_step_id : Option Nat
  current_round : Int
  executed_steps_count : Int
  error_reason : Option String
  created_at : Nat
  updated_at : Nat
  ended_at : Option Nat
deriving Repr, DecidableEq

/-- `app/models/session.py` `SessionRole`. -/
structure SessionRole where
  id : Nat
  session_id : Nat
  role_ref : String
  role_id : Nat
deriving Repr, DecidableEq

/-- `app/models/message.py` `Message`; `speaker_session_role_id` is nullable
(mapping-free mode support). -/
structure Message where
  id : Nat
  session_id : Nat
  speaker_session_role_id : Option Nat
  target_session_role_id : Option Nat
  reply_to_message_id : Option Nat
  content : String
  content_summary : Option String
  round_index : Int
  «section» : Option String
  created_at : Nat
deriving Repr, DecidableEq

/-- `app/models/step_execution_log.py` `StepExecutionLog` (the fields the
claims observe; the engine service itself never writes this table). -/
structure StepExecutionLog where
  id : Nat
  session_id : Nat
  step_id : Nat
  parent_log_id : Option Nat
  execution_order : Int
  round_index : Int
  loop_iteration : Int
  status : String
  created_at : Nat
deriving Repr, DecidableEq

/-- The persistent store: one list per table, rows kept in primary-key
(insertion) order. -/
structure DB where
  roles : List Role
  templates : List FlowTemplate
  steps : List FlowStep
  sessions : List Session
  sessionRoles : List SessionRole
  messages : List Message
  logs : List StepExecutionLog
deriving Repr, DecidableEq

/-! ## Query primitives -/

/-- `Query.get(id)` on each table. -/
def roleById (db : DB) (i : Nat) : Option Role := db.roles.find? (fun r => r.id == i)

/-- `FlowTemplate.query.get`. -/
def templateById (db : DB) (i : Nat) : Option FlowTemplate :=
  db.templates.find? (fun t => t.id == i)

/-- `FlowStep.query.get`. -/
def stepById (db : DB) (i : Nat) : Option FlowStep := db.steps.find? (fun s => s.id == i)

/-- `Session.query.get`. -/
def sessionById (db : DB) (i : Nat) : Option Session :=
  db.sessions.find? (fun s => s.id == i)

/-- `SessionRole.query.get`. -/
def sessionRoleById (db : DB) (i : Nat) : Option SessionRole :=
  db.sessionRoles.find? (fun s => s.id == i)

/-- `Message.query.get`. -/
def messageById (db : DB) (i : Nat) : Option Message :=
  db.messages.find? (fun m => m.id == i)

/-- Stable insertion sort, ascending on a `Nat` key: the model of SQL
`ORDER BY key` over rows scanned in primary-key order (ties keep that order,
matching SQLite's stable index scan). -/
def sortOnNat (key : α → Nat) : List α → List α
  | [] => []
  | x :: xs =>
    let rec insert (a : α) : List α → List α
      | [] => [a]
      | b :: bs => if key a < key b then a :: b :: bs else b :: insert a bs
    insert x (sortOnNat key xs)

/-- Stable insertion sort ascending on an `Int` key (for `FlowStep.order`). -/
def sortOnInt (key : α → Int) : List α → List α
  | [] => []
  | x :: xs =>
    let rec insert (a : α) : List α → List α
      | [] => [a]
      | b :: bs => if key a < key b then a :: b :: bs else b :: insert a bs
    insert x (sortOnInt key xs)

/-- `Message.query.filter_by(session_id=sid)` — base query, rows in
insertion order. -/
def messagesOf (db : DB) (sid : Nat) : List Message :=
  db.messages.filter (fun m => m.session_id == sid)

/-- `...order_by(Message.created_at.asc()).all()`. -/
def messagesAsc (db : DB) (sid : Nat) : List Message :=
  sortOnNat (fun m => m.created_at) (messagesOf db sid)

/-- `...order_by(Message.created_at.desc()).all()` (backward index scan:
the reverse of the ascending order). -/
def messagesDesc (db : DB) (sid : Nat) : List Message :=
  (messagesAsc db sid).reverse

/-- `SessionRole.query.filter_by(session_id=sid).all()`. -/
def sessionRolesOf (db : DB) (sid : Nat) : List SessionRole :=
  db.sessionRoles.filter (fun sr => sr.session_id == sid)

/-- `flow_template.steps.order_by(FlowStep.order).all()`: the steps of one
template sorted by their `order` column. -/
def orderedSteps (db : DB) (tid : Nat) : List FlowStep :=
  sortOnInt (fun s => s.order) (db.steps.filter (fun s => s.flow_template_id == tid))

/-- `StepExecutionLog.query.filter_by(session_id=sid).all()`. -/
def logsOf (db : DB) (sid : Nat) : List StepExecutionLog :=
  db.logs.filter (fun l => l.session_id == sid)

/-- Autoincrement primary key for a new row: one past the largest id. -/
def nextId (ids : List Nat) : Nat := ids.foldr max 0 + 1

/-- ASCII-case-insensitive substring test: the model of the SQL
`name LIKE '%' || ref || '%'` emitted by `Role.name.contains(role_ref)`
(SQLite `LIKE` is ASCII-case-insensitive). -/
def likeContains (name ref : String) : Bool :=
  (name.data.map Char.toLower).tails.any
    (fun t => (ref.data.map Char.toLower).isPrefixOf t)

/-! ## Errors

`app/services/session_service.py` declares the exception hierarchy
`SessionError` ⊇ {`SessionNotFoundError`, `InvalidSessionStateError`,
`FlowExecutionError`, `RoleMappingError`}; `app/services/flow_service.py`
declares `FlowTemplateError` ⊇ {`StepValidationError`, ...}.  Plain Python
errors (`AttributeError`, `NameError`, `TypeError`, `KeyError`) can also
escape the service bodies and are modelled explicitly. -/

inductive PyErr where
  | sessionError (msg : String)
  | sessionNotFound (msg : String)
  | invalidSessionState (msg : String)
  | flowExecution (msg : String)
  | roleMapping (msg : String)
  | flowTemplateError (msg : String)
  | stepValidation (msg : String)
  | attributeError (msg : String)
  | nameError (msg : String)
  | typeError (msg : String)
deriving Repr, DecidableEq

/-- `isinstance(e, SessionError)`. -/
def PyErr.isSessionError : PyErr → Bool
  | .sessionError _ | .sessionNotFound _ | .invalidSessionState _
  | .flowExecution _ | .roleMapping _ => true
  | _ => false

/-- `isinstance(e, FlowExecutionError)`. -/
def PyErr.isFlowExecution : PyErr → Bool
  | .flowExecution _ => true
  | _ => false

/-- `isinstance(e, SessionNotFoundError)`. -/
def PyErr.isSessionNotFound : PyErr → Bool
  | .sessionNotFound _ => true
  | _ => false

/-- `isinstance(e, InvalidSessionStateError)`. -/
def PyErr.isInvalidSessionState : PyErr → Bool
  | .invalidSessionState _ => true
  | _ => false

/-- `str(e)`: the message the exception was raised with. -/
def PyErr.msg : PyErr → String
  | .sessionError m | .sessionNotFound m | .invalidSessionState m
  | .flowExecution m | .roleMapping m | .flowTemplateError m
  | .stepValidation m | .attributeError m | .nameError m | .typeError m => m

/-! ## `SessionService` read helpers (`app/services/session_service.py`) -/

/-- Insert into a Python dict modelled as an insertion-ordered association
list: an existing key is overwritten in place, a new key is appended. -/
def dictUpsert (kvs : List (String × Nat)) (k : String) (v : Nat) : List (String × Nat) :=
  if kvs.any (fun kv => kv.1 == k) then
    kvs.map (fun kv => if kv.1 == k then (k, v) else kv)
  else kvs ++ [(k, v)]

/-- Dict key membership. -/
def dictHasKey (kvs : List (String × Nat)) (k : String) : Bool :=
  kvs.any (fun kv => kv.1 == k)

/-- `SessionService.get_role_mapping`: the comprehension
`{sr.role_ref: sr.role_id for sr in session_roles}` (a later duplicate
`role_ref` overwrites an earlier one). -/
def getRoleMapping (db : DB) (sid : Nat) : List (String × Nat) :=
  (sessionRolesOf db sid).foldl (fun m sr => dictUpsert m sr.role_ref sr.role_id) []

/-- `SessionService.get_session_role_by_ref`:
`filter_by(session_id, role_ref).first()`. -/
def getSessionRoleByRef (db : DB) (sid : Nat) (ref : String) : Option SessionRole :=
  db.sessionRoles.find? (fun sr => sr.session_id == sid && sr.role_ref == ref)

/-- `SessionService.get_role_for_execution`: mapping lookup, then exact name
lookup, then fuzzy (`LIKE '%ref%'`) lookup; `None` if nothing resolves. -/
def getRoleForExecution (db : DB) (sid : Nat) (ref : String) : Option Role :=
  match getSessionRoleByRef db sid ref with
  | some sr =>
    match roleById db sr.role_id with
    | some r => some r
    | Option.none => getRoleFallback db ref
  | Option.none => getRoleFallback db ref
where
  /-- The name-match / fuzzy-match fallback chain. -/
  getRoleFallback (db : DB) (ref : String) : Option Role :=
    match db.roles.find? (fun r => r.name == ref) with
    | some r => some r
    | Option.none => db.roles.find? (fun r => likeContains r.name ref)

/-! ## JSON property accessors of the models (`app/models/flow.py`,
`app/models/session.py`) -/

/-- Upsert into a `PyVal` dict (`dict.__setitem__`). -/
def pyDictSet (kvs : List (String × PyVal)) (k : String) (v : PyVal) : List (String × PyVal) :=
  if kvs.any (fun kv => kv.1 == k) then
    kvs.map (fun kv => if kv.1 == k then (k, v) else kv)
  else kvs ++ [(k, v)]

/-- Python `dict.update`: apply every entry of `b` onto `a`. -/
def pyDictUpdate (a b : List (String × PyVal)) : List (String × PyVal) :=
  b.foldl (fun acc kv => pyDictSet acc kv.1 kv.2) a

/-- `FlowStep.context_param_dict`: parse the `context_param` text, `{}` when
the column is empty or unparsable (the parse result is returned whatever its
shape). -/
def contextParamDict (st : FlowStep) : PyVal :=
  match st.context_param with
  | some s => if s != "" then (jsonLoads s).getD (.dict []) else .dict []
  | Option.none => .dict []

/-- `FlowStep.loop_config_dict`: parse the legacy `loop_config` text, keeping
only dict-shaped values, `{}` otherwise. -/
def loopConfigDict (st : FlowStep) : List (String × PyVal) :=
  match st.loop_config with
  | some s =>
    if s != "" then
      match jsonLoads s with
      | some (.dict kvs) => kvs
      | _ => []
    else []
  | Option.none => []

/-- `FlowStep.condition_config_dict`: same shape as `loop_config_dict` on the
legacy `condition_config` column. -/
def conditionConfigDict (st : FlowStep) : List (String × PyVal) :=
  match st.condition_config with
  | some s =>
    if s != "" then
      match jsonLoads s with
      | some (.dict kvs) => kvs
      | _ => []
    else []
  | Option.none => []

/-- `FlowStep.logic_config_dict`: the parsed `logic_config` when it is a
JSON dict, else the merge of the legacy loop/condition config dicts. -/
def logicConfigDict (st : FlowStep) : List (String × PyVal) :=
  let parsedNew : Option (List (String × PyVal)) :=
    match st.logic_config with
    | some s =>
      if s != "" then
        match jsonLoads s with
        | some (.dict kvs) => some kvs
        | _ => Option.none
      else Option.none
    | Option.none => Option.none
  match parsedNew with
  | some kvs => kvs
  | Option.none => pyDictUpdate (pyDictUpdate [] (loopConfigDict st)) (conditionConfigDict st)

/-- `FlowStep.context_scope_value`: the parsed scope when it is valid JSON,
else the raw string. -/
def contextScopeValue (st : FlowStep) : PyVal :=
  if st.context_scope != "" then
    match jsonLoads st.context_scope with
    | some v => v
    | Option.none => .str st.context_scope
  else .str st.context_scope

/-- `FlowTemplate.termination_config_dict`. -/
def terminationConfigDict (ft : FlowTemplate) : PyVal :=
  match ft.termination_config with
  | some s => if s != "" then (jsonLoads s).getD (.dict []) else .dict []
  | Option.none => .dict []

/-- `Session.flow_snapshot_dict` (the parse result is returned whatever its
shape, `{}` when empty or unparsable). -/
def flowSnapshotDict (s : Session) : PyVal :=
  match s.flow_snapshot with
  | some t => if t != "" then (jsonLoads t).getD (.dict []) else .dict []
  | Option.none => .dict []

/-- `Session.roles_snapshot_dict`. -/
def rolesSnapshotDict (s : Session) : PyVal :=
  match s.roles_snapshot with
  | some t => if t != "" then (jsonLoads t).getD (.dict []) else .dict []
  | Option.none => .dict []

/-- Optional string column rendered into a dict (`None` for `NULL`). -/
def pyOptStr : Option String → PyVal
  | some s => .str s
  | Option.none => .none

/-- Optional integer column rendered into a dict. -/
def pyOptNat : Option Nat → PyVal
  | some n => .int n
  | Option.none => .none

/-- `FlowStep.to_dict`. -/
def stepToDict (st : FlowStep) : PyVal :=
  .dict [("id", .int st.id),
         ("flow_template_id", .int st.flow_template_id),
         ("order", .int st.order),
         ("speaker_role_ref", .str st.speaker_role_ref),
         ("target_role_ref", pyOptStr st.target_role_ref),
         ("task_type", .str st.task_type),
         ("context_scope", contextScopeValue st),
         ("context_param", contextParamDict st),
         ("logic_config", .dict (logicConfigDict st)),
         ("next_step_id", pyOptNat st.next_step_id),
         ("description", pyOptStr st.description)]

/-- `FlowTemplate.to_dict(include_steps=True)` — the value serialized into a
session's frozen snapshot (`datetime.isoformat()` abstracted as the numeric
clock rendered as text). -/
def templateToDict (db : DB) (ft : FlowTemplate) : PyVal :=
  .dict [("id", .int ft.id),
         ("name", .str ft.name),
         ("topic", pyOptStr ft.topic),
         ("type", .str ft.type),
         ("description", pyOptStr ft.description),
         ("version", .str ft.version),
         ("is_active", .bool ft.is_active),
         ("termination_config", terminationConfigDict ft),
         ("created_at", .str (toString ft.created_at)),
         ("updated_at", .str (toString ft.updated_at)),
         ("step_count", .int (orderedSteps db ft.id).length),
         ("steps", .list ((orderedSteps db ft.id).map stepToDict))]

/-! ## `FlowEngineService._select_context_messages`
(`app/services/flow_engine_service.py` lines 191-326)

The `context_scope` column is `Text, nullable=False`, so on a
database-loaded step the raw attribute is always a string and only the
`isinstance(scope, str)` branch of the source can run; the `list`/`dict`
branches (lines 291-326) are unreachable for stored steps and have no
counterpart here. -/

/-- The `role_name_to_session_ids` table built at the top of
`_select_context_messages`: for each mapping key that resolves to a
`SessionRole`, the list of its session-role ids. -/
def roleNameToSessionIds (db : DB) (sid : Nat) : List (String × List Nat) :=
  (getRoleMapping db sid).foldl (fun acc kv =>
    match getSessionRoleByRef db sid kv.1 with
    | some sr =>
      if acc.any (fun e => e.1 == kv.1) then
        acc.map (fun e => if e.1 == kv.1 then (e.1, e.2 ++ [sr.id]) else e)
      else acc ++ [(kv.1, [sr.id])]
    | Option.none => acc) []

/-- Lookup in the `role_name_to_session_ids` table. -/
def rnLookup (tbl : List (String × List Nat)) (k : String) : Option (List Nat) :=
  (tbl.find? (fun e => e.1 == k)).map (fun e => e.2)

/-- `FlowEngineService._select_context_messages`.  Two branches raise at
run time on any database-loaded step, and are modelled as errors:
`last_round` with a non-empty previous round evaluates `and_(...)` although
`and_` is never imported in `flow_engine_service.py` (`NameError`), and
`last_n_messages` calls `.get('n', 5)` on the raw `context_param` `Text`
column, whose value (`str` or `None`) has no `.get` (`AttributeError`). -/
def selectContextMessages (db : DB) (sess : Session) (step : FlowStep) :
    Except PyErr (List Message) :=
  if step.context_scope == "none" then .ok []
  else if step.context_scope == "last_message" then
    .ok ((messagesDesc db sess.id).take 1)
  else if step.context_scope == "last_round" then
    let prevRound := (messagesOf db sess.id).filter
      (fun m => m.round_index == sess.current_round - 1)
    if prevRound.isEmpty then .ok []
    else .error (.nameError "name 'and_' is not defined")
  else if step.context_scope == "last_n_messages" then
    match step.context_param with
    | some _ => .error (.attributeError "'str' object has no attribute 'get'")
    | Option.none => .error (.attributeError "'NoneType' object has no attribute 'get'")
  else if step.context_scope == "all" then
    .ok (messagesAsc db sess.id)
  else
    let tbl := roleNameToSessionIds db sess.id
    let roleNames : List String :=
      if tbl.any (fun e => e.1 == step.context_scope) then [step.context_scope]
      else
        let parsed : Option PyVal :=
          if step.context_scope != "" then jsonLoads step.context_scope
          else some (.list [])
        match parsed with
        | some (.list xs) =>
          xs.filterMap (fun v =>
            match v with
            | .str s2 => if tbl.any (fun e => e.1 == s2) then some s2 else Option.none
            | _ => Option.none)
        | _ => []
    if roleNames.isEmpty then .ok []
    else
      let ids := roleNames.foldl (fun acc n => acc ++ (rnLookup tbl n).getD []) []
      .ok (sortOnNat (fun m => m.created_at)
        ((messagesOf db sess.id).filter (fun m =>
          match m.speaker_session_role_id with
          | some i => ids.contains i
          | Option.none => false)))

/-! ## `FlowEngineService._build_context` and prompt building -/

/-- One entry of `context['history_messages']`. -/
structure HistoryItem where
  id : Nat
  speaker_role : Option String
  target_role : Option String
  content : String
  round_index : Int
  «section» : Option String
  created_at : Nat
deriving Repr, DecidableEq

/-- `context['target_last_message']`. -/
structure TargetLastMessage where
  id : Nat
  speaker_role : String
  content : String
  round_index : Int
  «section» : Option String
  created_at : Nat
deriving Repr, DecidableEq

/-- `context['current_step']`. -/
structure StepInfo where
  task_type : String
  description : Option String
  target_role_ref : Option String
deriving Repr, DecidableEq

/-- The context dict built by `_build_context`. -/
structure Context where
  session_topic : String
  current_round : Int
  step_count : Int
  session_roles : List (String × Nat)
  history_messages : List HistoryItem
  target_last_message : Option TargetLastMessage
  current_step : StepInfo
deriving Repr, DecidableEq

/-- `msg.speaker_role.role.name if msg.speaker_role and msg.speaker_role.role
else None`. -/
def speakerRoleName (db : DB) (m : Message) : Option String :=
  match m.speaker_session_role_id with
  | some i =>
    match sessionRoleById db i with
    | some sr => (roleById db sr.role_id).map (fun r => r.name)
    | Option.none => Option.none
  | Option.none => Option.none

/-- `msg.target_role.role.name if msg.target_role and msg.target_role.role
else None`. -/
def targetRoleName (db : DB) (m : Message) : Option String :=
  match m.target_session_role_id with
  | some i =>
    match sessionRoleById db i with
    | some sr => (roleById db sr.role_id).map (fun r => r.name)
    | Option.none => Option.none
  | Option.none => Option.none

/-- `FlowEngineService._build_context`.  The only failing sub-call is the
context-message selection; everything after it is total. -/
def buildContext (db : DB) (sess : Session) (step : FlowStep) : Except PyErr Context := do
  -- role mapping with the defensive isinstance check (always a dict here)
  let roleMapping := getRoleMapping db sess.id
  let msgs ← selectContextMessages db sess step
  let history := msgs.map (fun m =>
    { id := m.id
      speaker_role := speakerRoleName db m
      target_role := targetRoleName db m
      content := m.content
      round_index := m.round_index
      «section» := m.«section»
      created_at := m.created_at : HistoryItem })
  let targetLast : Option TargetLastMessage :=
    match step.target_role_ref with
    | some tref =>
      if tref != "" then
        match getSessionRoleByRef db sess.id tref with
        | some tsr =>
          let lastTargetMsg := (sortOnNat (fun m => m.created_at)
            ((messagesOf db sess.id).filter
              (fun m => m.speaker_session_role_id == some tsr.id))).getLast?
          match lastTargetMsg with
          | some m => some
            { id := m.id
              speaker_role := match roleById db tsr.role_id with
                | some r => r.name
                | Option.none => tref
              content := m.content
              round_index := m.round_index
              «section» := m.«section»
              created_at := m.created_at }
          | Option.none => Option.none
        | Option.none => Option.none
      else Option.none
    | Option.none => Option.none
  return { session_topic := sess.topic
           current_round := sess.current_round
           step_count := sess.executed_steps_count
           session_roles := roleMapping
           history_messages := history
           target_last_message := targetLast
           current_step :=
             { task_type := step.task_type
               description := step.description
               target_role_ref := step.target_role_ref } }

/-- `FlowEngineService._build_simple_prompt`.  The `Role` model has `name`
and (non-nullable) `prompt` attributes and no `description`, so the
`hasattr(role, 'description')` fallback can only be skipped. -/
def buildSimplePrompt (role : Role) (step : FlowStep) (ctx : Context) : String :=
  let roleDesc :=
    if role.prompt != "" then "你是" ++ role.name ++ "。" ++ role.prompt
    else "你是" ++ role.name
  let parts := [roleDesc]
  let parts := if ctx.session_topic != "" then parts ++ ["会话主题：" ++ ctx.session_topic]
    else parts
  let taskDesc := match step.description with
    | some d => if d != "" then d else step.task_type
    | Option.none => step.task_type
  let parts := parts ++ ["任务：" ++ taskDesc]
  let parts := parts ++ ["第" ++ toString ctx.current_round ++ "轮对话，第" ++
    toString (ctx.step_count + 1) ++ "个步骤"]
  let parts := parts ++ ["请以该角色的身份进行回应。"]
  String.intercalate " " parts

/-- One entry of the `history` array sent to the chat endpoint. -/
structure ChatMsg where
  role : String
  content : String
deriving Repr, DecidableEq

/-- The `history_messages` conversion inside `_generate_llm_response_sync`:
last 10 items, skipping empty contents; a speaker name that is not `用户`
(including the rendered `None`) becomes `assistant`. -/
def buildChatHistory (history : List HistoryItem) : List ChatMsg :=
  ((history.reverse.take 10).reverse).filterMap (fun h =>
    if h.content != "" then
      let roleName := match h.speaker_role with
        | some s => s
        | Option.none => "None"
      some { role := if roleName != "用户" then "assistant" else "user"
             content := roleName ++ ": " ++ h.content }
    else Option.none)

/-- The external generation capability (`/api/llm/chat` round trip):
`some text` for a successful response, `none` for any failure. -/
def GenOracle : Type := String → List ChatMsg → Option String

/-- `FlowEngineService._generate_llm_response_sync`: every failure path —
network errors and even the `FlowExecutionError`s raised for bad payloads,
which the final `except Exception` swallows — falls back to returning the
locally built prompt, so generation never raises. -/
def generateLlmResponseSync (gen : GenOracle) (role : Role) (step : FlowStep)
    (ctx : Context) : String :=
  let prompt := buildSimplePrompt role step ctx
  match gen prompt (buildChatHistory ctx.history_messages) with
  | some text => text
  | Option.none => prompt

/-! ## Message bookkeeping helpers -/

/-- `FlowEngineService._get_target_session_role_id`. -/
def getTargetSessionRoleId (db : DB) (sid : Nat) (targetRef : Option String) : Option Nat :=
  match targetRef with
  | some tref =>
    if tref != "" then (getSessionRoleByRef db sid tref).map (fun sr => sr.id)
    else Option.none
  | Option.none => Option.none

/-- `FlowEngineService._get_reply_to_message_id`: the most recent message of
the session. -/
def getReplyToMessageId (db : DB) (sess : Session) : Option Nat :=
  ((messagesAsc db sess.id).getLast?).map (fun m => m.id)

/-- `FlowEngineService._generate_content_summary`. -/
def generateContentSummary (content : String) : String :=
  if content.length ≤ 100 then content
  else ⟨content.data.take 97⟩ ++ "..."

/-- `FlowEngineService._determine_message_section`. -/
def determineMessageSection (step : FlowStep) : String :=
  if step.task_type == "ask_question" then "提问阶段"
  else if step.task_type == "answer_question" then "回答阶段"
  else if step.task_type == "review_answer" then "点评阶段"
  else if step.task_type == "question" then "质疑阶段"
  else if step.task_type == "summarize" then "总结阶段"
  else if step.task_type == "evaluate" then "评估阶段"
  else if step.task_type == "suggest" then "建议阶段"
  else if step.task_type == "challenge" then "挑战阶段"
  else if step.task_type == "support" then "支持阶段"
  else if step.task_type == "conclude" then "结论阶段"
  else "讨论阶段"

/-- `FlowEngineService._should_start_new_round`. -/
def shouldStartNewRound (step : FlowStep) : Bool :=
  step.task_type == "summarize" || step.task_type == "conclude"

/-! ## Exit condition and next-step decision
(`FlowEngineService._check_exit_condition`, `_determine_next_step`) -/

/-- The value of `current_step.logic_config or {}` at line 555 of
`flow_engine_service.py`.  The expression reads the raw `logic_config`
`Text` column — not the `logic_config_dict` property — so on a
database-loaded step it is either JSON *text* (a Python `str`) or, when the
column is `NULL` or empty, the `{}` fallback. -/
def rawLogicConfig (step : FlowStep) : PyVal :=
  match step.logic_config with
  | some s => if s != "" then .str s else .dict []
  | Option.none => .dict []

/-- `FlowEngineService._check_exit_condition`.  Faithful to the source,
including the branch where `json.loads` of the latest message succeeds with
a non-dict value and `data.get('accept')` raises an `AttributeError` that
the `(json.JSONDecodeError, TypeError, ValueError)` clause does not catch. -/
def checkExitCondition (db : DB) (sess : Session) (step : FlowStep) : Except PyErr Bool :=
  let logic_config := rawLogicConfig step
  -- exit_config = logic_config.get('exit_condition') if isinstance(logic_config, dict) else None
  let exit_config : Option PyVal :=
    match logic_config with
    | .dict kvs => pyDictGet kvs "exit_condition"
    | _ => Option.none
  -- if not exit_config or not isinstance(exit_config, dict): return False
  match exit_config with
  | Option.none => .ok false
  | some v =>
    if !pyTruthy v then .ok false
    else
      match v with
      | .dict ec =>
        match pyDictGet ec "type" with
        | some (.str "llm_accept_flag") =>
          if step.speaker_role_ref == "" then .ok false
          else
            match getSessionRoleByRef db sess.id step.speaker_role_ref with
            | Option.none => .ok false
            | some sr =>
              let lastMsg := (sortOnNat (fun m => m.created_at)
                ((messagesOf db sess.id).filter
                  (fun m => m.speaker_session_role_id == some sr.id))).getLast?
              match lastMsg with
              | Option.none => .ok false
              | some m =>
                if m.content == "" then .ok false
                else
                  match jsonLoads m.content with
                  | Option.none => .ok false
                  | some (.dict d) =>
                    -- bool(accept_value is True)
                    .ok (match pyDictGet d "accept" with
                         | some (.bool true) => true
                         | _ => false)
                  | some _ =>
                    .error (.attributeError "object has no attribute 'get'")
        | _ => .ok false
      | _ => .ok false

/-- The loop-back target of `_determine_next_step`: the first step whose
`speaker_role_ref` equals the configured `loop_start_role_ref`, else the
first step of the template (both matching the fall-through of the source:
a configured reference that matches nothing also falls back to the first
step). -/
def loopBackTarget (allSteps : List FlowStep) (loopCfg : List (String × PyVal)) : Option Nat :=
  let ref := (pyDictGet loopCfg "loop_start_role_ref").getD .none
  if pyTruthy ref then
    match allSteps.find? (fun st =>
      match ref with
      | .str r => st.speaker_role_ref == r
      | _ => false) with
    | some st => some st.id
    | Option.none => (allSteps.head?).map (fun st => st.id)
  else (allSteps.head?).map (fun st => st.id)

/-- `FlowEngineService._determine_next_step`: exit condition, then linear
advance over the *live* template's ordered steps, then the loop
configuration of the last step.  `max_loops` comes from an untyped config
dict; a non-numeric value makes the `session.current_round < max_loops`
comparison raise `TypeError` (Python `bool` counts as a number). -/
def determineNextStep (db : DB) (sess : Session) (step : FlowStep) :
    Except PyErr (Option Nat) := do
  let exitNow ← checkExitCondition db sess step
  if exitNow then return Option.none
  else
    match templateById db sess.flow_template_id with
    | Option.none => return Option.none
    | some ft =>
      let allSteps := orderedSteps db ft.id
      match allSteps.findIdx? (fun st => st.id == step.id) with
      | Option.none => return Option.none
      | some i =>
        if h : i + 1 < allSteps.length then
          return some (allSteps.get ⟨i + 1, h⟩).id
        else
          let loopCfg := loopConfigDict step
          if pyTruthy ((pyDictGet loopCfg "enabled").getD (.bool false)) then
            match (pyDictGet loopCfg "max_loops").getD (.int 1) with
            | .int m =>
              if sess.current_round < m then return (loopBackTarget allSteps loopCfg)
              else return Option.none
            | .bool b =>
              if sess.current_round < (if b then (1 : Int) else 0) then
                return (loopBackTarget allSteps loopCfg)
              else return Option.none
            | _ => throw (.typeError "unsupported comparison for max_loops")
          else return Option.none

/-- `FlowEngineService._update_session_after_step_execution`: bump the
executed-step counter and timestamp, advance the round on closing task
kinds, then either move `current_step_id` forward or finish the session
with an end time. -/
def updateSessionAfterStepExecution (db : DB) (now : Nat) (sess : Session)
    (step : FlowStep) : Except PyErr Session := do
  let s1 := { sess with
    executed_steps_count := sess.executed_steps_count + 1
    updated_at := now }
  let s2 := if shouldStartNewRound step then
      { s1 with current_round := s1.current_round + 1 }
    else s1
  let nextStepId ← determineNextStep db s2 step
  match nextStepId with
  | some nid => return { s2 with current_step_id := some nid }
  | Option.none => return { s2 with status := "finished", ended_at := some now }

/-! ## `FlowEngineService.execute_next_step` -/

/-- The `execution_info` dict returned alongside the new message. -/
structure ExecInfo where
  step_executed : Bool
  session_status : String
  current_round : Int
  executed_steps_count : Int
  next_step_id : Option Nat
  is_finished : Bool
deriving Repr, DecidableEq

/-- Outcome of one `execute_next_step` call: either a committed store plus
the new message and execution info, or an error together with the store the
caller observes afterwards (the `except` handler runs
`db.session.rollback()`, so that store is the pre-call one). -/
inductive ExecResult where
  | ok (db : DB) (message : Message) (info : ExecInfo)
  | err (e : PyErr) (db : DB)
deriving Repr, DecidableEq

/-- Replace the row of session `s.id` by `s` (the UPDATE emitted at commit
for the mutated ORM instance). -/
def replaceSession (db : DB) (s : Session) : DB :=
  { db with sessions := db.sessions.map (fun t => if t.id == s.id then s else t) }

/-- The persist-and-advance tail of the `try:` block (lines 87-105): flush
the new message, update the session bookkeeping, commit, and assemble the
`execution_info` dict. -/
def commitStepExecution (now : Nat) (db1 : DB) (sess : Session) (currentStep : FlowStep)
    (message : Message) : Except PyErr (DB × Message × ExecInfo) := do
  let db2 := { db1 with messages := db1.messages ++ [message] }
  let sess2 ← updateSessionAfterStepExecution db2 now sess currentStep
  let db3 := replaceSession db2 sess2
  let info : ExecInfo :=
    { step_executed := true
      session_status := sess2.status
      current_round := sess2.current_round
      executed_steps_count := sess2.executed_steps_count
      next_step_id := sess2.current_step_id
      is_finished := sess2.status == "finished" }
  return (db3, message, info)

/-- The body of the `try:` block of `execute_next_step` (lines 38-105),
threading the uncommitted working store. -/
def executeBody (gen : GenOracle) (now : Nat) (db : DB) (sess : Session) :
    Except PyErr (DB × Message × ExecInfo) := do
  -- current_step = FlowStep.query.get(session.current_step_id)
  let currentStep ← match sess.current_step_id with
    | some cid =>
      match stepById db cid with
      | some st => pure st
      | Option.none =>
        throw (.flowExecution ("当前步骤ID " ++ toString cid ++ " 不存在"))
    | Option.none => throw (.flowExecution "当前步骤ID None 不存在")
  let role ← match getRoleForExecution db sess.id currentStep.speaker_role_ref with
    | some r => pure r
    | Option.none =>
      throw (.flowExecution ("发言角色 '" ++ currentStep.speaker_role_ref ++ "' 未找到"))
  -- session_role, or a temporary one flushed for the mapping-free mode
  let dbSr : DB × Nat :=
    match getSessionRoleByRef db sess.id currentStep.speaker_role_ref with
    | some sr => (db, sr.id)
    | Option.none =>
      let newSrId := nextId (db.sessionRoles.map (fun sr => sr.id))
      ({ db with sessionRoles := db.sessionRoles ++
          [{ id := newSrId, session_id := sess.id,
             role_ref := currentStep.speaker_role_ref, role_id := role.id }] },
       newSrId)
  let db1 := dbSr.1
  let speakerSrId := dbSr.2
  let ctx ← buildContext db1 sess currentStep
  let content := generateLlmResponseSync gen role currentStep ctx
  let message : Message :=
    { id := nextId (db1.messages.map (fun m => m.id))
      session_id := sess.id
      speaker_session_role_id := some speakerSrId
      target_session_role_id := getTargetSessionRoleId db1 sess.id currentStep.target_role_ref
      reply_to_message_id := getReplyToMessageId db1 sess
      content := content
      content_summary := some (generateContentSummary content)
      round_index := sess.current_round
      «section» := some (determineMessageSection currentStep)
      created_at := now }
  commitStepExecution now db1 sess currentStep message

/-- `FlowEngineService.execute_next_step`.  A missing session raises the
`SessionError` base class and a non-running session a `FlowExecutionError`,
both before any mutation; inside the `try:` block every failure rolls the
store back to its pre-call state and is re-raised as-is when it is a
`SessionError` subclass, else wrapped into `FlowExecutionError`. -/
def executeNextStep (gen : GenOracle) (now : Nat) (db : DB) (sid : Nat) : ExecResult :=
  match sessionById db sid with
  | Option.none => .err (.sessionError ("会话ID " ++ toString sid ++ " 不存在")) db
  | some sess =>
    if sess.status != "running" then
      .err (.flowExecution ("会话状态为 " ++ sess.status ++ "，无法执行步骤")) db
    else
      match executeBody gen now db sess with
      | .ok (db3, message, info) => .ok db3 message info
      | .error e =>
        .err (if e.isSessionError then e
              else .flowExecution ("执行步骤失败: " ++ e.msg)) db

/-! ## `SessionService.create_session` and `_validate_role_mappings` -/

/-- Result of a session-creating service call. -/
inductive CreateResult where
  | ok (db : DB) (s : Session)
  | err (e : PyErr) (db : DB)
deriving Repr, DecidableEq

/-- The request payload of `create_session` (`topic` and `flow_template_id`
are required by the schema; `role_mappings` is the optional dict, modelled
as an insertion-ordered association list with unique keys). -/
structure SessionCreateData where
  user_id : Option Nat
  topic : String
  flow_template_id : Nat
  role_mappings : Option (List (String × Nat))
deriving Repr, DecidableEq

/-- The distinct speaker/target role references collected from a template's
steps (the `template_roles` set of `_validate_role_mappings`, in first-seen
order). -/
def templateRoleRefs (db : DB) (ftId : Nat) : List String :=
  (orderedSteps db ftId).foldl (fun acc st =>
    let acc := if acc.contains st.speaker_role_ref then acc
      else acc ++ [st.speaker_role_ref]
    match st.target_role_ref with
    | some t => if t != "" && !acc.contains t then acc ++ [t] else acc
    | Option.none => acc) []

/-- `SessionService._validate_role_mappings`: every speaker/target reference
of the template's steps must be a key of the mapping, and every mapped role
id must exist. -/
def validateRoleMappings (db : DB) (ft : FlowTemplate) (rm : List (String × Nat)) :
    Except PyErr Unit := do
  let missing := (templateRoleRefs db ft.id).filter
    (fun r => !(rm.any (fun kv => kv.1 == r)))
  if !missing.isEmpty then
    throw (.roleMapping ("缺少角色映射: " ++ String.intercalate ", " missing))
  else
    match rm.find? (fun kv => (roleById db kv.2).isNone) with
    | some kv => throw (.roleMapping ("角色ID " ++ toString kv.2 ++ " 不存在"))
    | Option.none => pure ()

/-- `Role.to_dict` (timestamp fields, unused by the engine, are omitted from
the `Role` model). -/
def roleToDict (r : Role) : PyVal :=
  .dict [("id", .int r.id), ("name", .str r.name), ("prompt", .str r.prompt)]

/-- `SessionService._create_roles_snapshot`. -/
def createRolesSnapshot (db : DB) (rm : List (String × Nat)) : List (String × PyVal) :=
  rm.foldl (fun acc kv =>
    match roleById db kv.2 with
    | some r => pyDictSet acc kv.1 (roleToDict r)
    | Option.none => acc) []

/-- The `try:` body of `create_session`. -/
def createSessionBody (now : Nat) (db : DB) (data : SessionCreateData) :
    Except PyErr (DB × Session) := do
  let ft ← match templateById db data.flow_template_id with
    | some t => pure t
    | Option.none =>
      throw (.sessionNotFound ("流程模板ID " ++ toString data.flow_template_id ++ " 不存在"))
  match data.role_mappings with
  | some rm => validateRoleMappings db ft rm
  | Option.none => pure ()
  let newSid := nextId (db.sessions.map (fun s => s.id))
  let rolesSnapText : String :=
    match data.role_mappings with
    | some rm => jsonDumps (.dict (createRolesSnapshot db rm))
    | Option.none => jsonDumps (.dict [])
  let sess : Session :=
    { id := newSid
      user_id := data.user_id
      topic := data.topic
      flow_template_id := data.flow_template_id
      flow_snapshot := some (jsonDumps (templateToDict db ft))
      roles_snapshot := some rolesSnapText
      status := "not_started"
      current_step_id := Option.none
      current_round := 0
      executed_steps_count := 0
      error_reason := Option.none
      created_at := now
      updated_at := now
      ended_at := Option.none }
  let newRoles : List SessionRole :=
    match data.role_mappings with
    | some rm => rm.enum.map (fun p =>
        { id := nextId (db.sessionRoles.map (fun sr => sr.id)) + p.1
          session_id := newSid
          role_ref := p.2.1
          role_id := p.2.2 })
    | Option.none => []
  return ({ db with sessions := db.sessions ++ [sess],
                    sessionRoles := db.sessionRoles ++ newRoles }, sess)

/-- `SessionService.create_session`: the whole body runs inside `try:`;
`SessionError` subclasses are re-raised unchanged, anything else is wrapped
into the `SessionError` base, and the store rolls back to its pre-call
state on every failure. -/
def createSession (now : Nat) (db : DB) (data : SessionCreateData) : CreateResult :=
  match createSessionBody now db data with
  | .ok (db', s) => .ok db' s
  | .error e =>
    .err (if e.isSessionError then e else .sessionError ("创建会话失败: " ++ e.msg)) db

/-! ## `SessionService.create_branch_session` -/

/-- The snapshot property setter (`flow_snapshot_dict.setter` /
`roles_snapshot_dict.setter`) composed with SQLite's TEXT-affinity binding:
a dict is `json.dumps`ed, a raw string/None passes through, numbers are
stored as their text form, and a list cannot be bound to a `Text` column. -/
def snapshotSetter (v : PyVal) : Except PyErr (Option String) :=
  match v with
  | .dict kvs => .ok (some (jsonDumps (.dict kvs)))
  | .str s => .ok (some s)
  | .none => .ok Option.none
  | .int n => .ok (some (toString n))
  | .bool b => .ok (some (if b then "1" else "0"))
  | .list _ => .error (.typeError "unsupported bind type: list")

/-- The messages `create_branch_session` copies: the source session's rows
with `id <= cut_message_id`, ordered by creation time. -/
def branchPrefix (db : DB) (sid cutId : Nat) : List Message :=
  sortOnNat (fun m => m.created_at)
    (db.messages.filter (fun m => m.session_id == sid && m.id ≤ cutId))

/-- The new session's copies of the source session's `SessionRole` rows,
with fresh ids. -/
def newBranchRoles (db : DB) (sid newSid : Nat) : List SessionRole :=
  (sessionRolesOf db sid).enum.map (fun p =>
    { id := nextId (db.sessionRoles.map (fun sr => sr.id)) + p.1
      session_id := newSid
      role_ref := p.2.role_ref
      role_id := p.2.role_id })

/-- One iteration of the message-copy loop of `create_branch_session`:
resolve the original speaker's `SessionRole` (`Query.get` on a `NULL` or
dangling id blows up, as in the source), find the new session's role with
the same `role_ref`, and append the copied message (targets and reply
pointers are copied verbatim; the id is the next autoincrement value). -/
def copyBranchMessage (db : DB) (newRoles : List SessionRole) (newSid baseMsgId now : Nat)
    (acc : List Message) (m : Message) : Except PyErr (List Message) := do
  let osr ← match m.speaker_session_role_id with
    | some i =>
      match sessionRoleById db i with
      | some sr => pure sr
      | Option.none => throw (.attributeError "'NoneType' object has no attribute 'role_ref'")
    | Option.none => throw (.attributeError "'NoneType' object has no attribute 'role_ref'")
  let nsr ← match newRoles.find? (fun r => r.role_ref == osr.role_ref) with
    | some r => pure r
    | Option.none => throw (.attributeError "'NoneType' object has no attribute 'id'")
  let newMsg : Message :=
    { id := baseMsgId + acc.length
      session_id := newSid
      speaker_session_role_id := some nsr.id
      target_session_role_id := m.target_session_role_id
      reply_to_message_id := m.reply_to_message_id
      content := m.content
      content_summary := m.content_summary
      round_index := m.round_index
      «section» := m.«section»
      created_at := now }
  pure (acc ++ [newMsg])

/-- The `try:` body of `create_branch_session`: validate the cut message,
build the new session, copy the session roles, then copy the message prefix
`id <= cut_message_id` with speakers remapped onto the new session's roles
(targets and reply pointers are copied verbatim).  A message whose
`speaker_session_role_id` is `NULL` or dangling makes the remap lookup blow
up (`AttributeError`), as in the source. -/
def branchBody (now : Nat) (db : DB) (orig : Session) (cutId : Nat)
    (newTopic : Option String) : Except PyErr (DB × Session) := do
  match messageById db cutId with
  | some m =>
    if m.session_id == orig.id then pure ()
    else throw (.sessionNotFound
      ("分支点消息ID " ++ toString cutId ++ " 不存在或不属于该会话"))
  | Option.none =>
    throw (.sessionNotFound ("分支点消息ID " ++ toString cutId ++ " 不存在或不属于该会话"))
  let flowSnap ← snapshotSetter (flowSnapshotDict orig)
  let rolesSnap ← snapshotSetter (rolesSnapshotDict orig)
  let newSid := nextId (db.sessions.map (fun s => s.id))
  let newSession : Session :=
    { id := newSid
      user_id := orig.user_id
      topic := match newTopic with
        | some t => if t != "" then t else orig.topic ++ " (分支)"
        | Option.none => orig.topic ++ " (分支)"
      flow_template_id := orig.flow_template_id
      flow_snapshot := flowSnap
      roles_snapshot := rolesSnap
      status := "not_started"
      current_step_id := Option.none
      current_round := 0
      executed_steps_count := 0
      error_reason := Option.none
      created_at := now
      updated_at := now
      ended_at := Option.none }
  let newRoles := newBranchRoles db orig.id newSid
  let baseMsgId := nextId (db.messages.map (fun m => m.id))
  let copied ← (branchPrefix db orig.id cutId).foldlM
    (copyBranchMessage db newRoles newSid baseMsgId now) []
  return ({ db with sessions := db.sessions ++ [newSession],
                    sessionRoles := db.sessionRoles ++ newRoles,
                    messages := db.messages ++ copied }, newSession)

/-- `SessionService.create_branch_session`.  Only the source-session lookup
happens before the `try:` block, so a missing source raises
`SessionNotFoundError`; any failure inside the block — including the
`SessionNotFoundError` raised for a missing/foreign cut message — is caught
by the unconditional `except Exception` and re-raised as the generic
`SessionError` wrapper, after rollback. -/
def createBranchSession (now : Nat) (db : DB) (sid cutId : Nat)
    (newTopic : Option String) : CreateResult :=
  match sessionById db sid with
  | Option.none => .err (.sessionNotFound ("原会话ID " ++ toString sid ++ " 不存在")) db
  | some orig =>
    match branchBody now db orig cutId newTopic with
    | .ok (db', s) => .ok db' s
    | .error e => .err (.sessionError ("创建分支会话失败: " ++ e.msg)) db

/-! ## `FlowTemplateService._validate_steps_data`
(`app/services/flow_service.py` lines 148-233) -/

/-- One element of the `steps_data` list: the step dict after the schema
layer (`FlowStepSchema`) has checked the required fields, with the untyped
`context_scope` / `context_param` payloads kept dynamic. -/
structure StepData where
  order : Int
  speaker_role_ref : String
  target_role_ref : Option String
  task_type : String
  context_scope : PyVal
  context_param : Option PyVal
  logic_config : Option PyVal
  next_step_id : Option Nat
  description : Option String

/-- The `valid_task_types` list of `_validate_steps_data`. -/
def validTaskTypes : List String :=
  ["ask_question", "answer_question", "review_answer", "question",
   "summarize", "evaluate", "suggest", "challenge", "support", "conclude",
   "comment"]

/-- `base_context_scopes`. -/
def baseContextScopes : List String :=
  ["none", "last_message", "last_round", "last_n_messages", "all"]

/-- `system_context_scopes`. -/
def systemContextScopes : List String := ["__TOPIC__"]

/-- The context-scope acceptance check of `_validate_steps_data`: base and
system scopes pass; a string parsing to a non-empty JSON array must contain
only non-blank strings, any other string must be non-blank after `strip()`;
a literal list must be non-empty with only non-blank string entries; every
other shape is invalid. -/
def validateScopeOk (scope : PyVal) : Bool :=
  match scope with
  | .str s =>
    if baseContextScopes.contains s || systemContextScopes.contains s then true
    else
      match jsonLoads s with
      | some (.list xs) =>
        if !xs.isEmpty then
          xs.all (fun v =>
            match v with
            | .str n => pyStrip n != ""
            | _ => false)
        else pyStrip s != ""
      | _ => pyStrip s != ""
  | .list xs =>
    if !xs.isEmpty then
      xs.all (fun v =>
        match v with
        | .str n => pyStrip n != ""
        | _ => false)
    else false
  | _ => false

/-- The per-step part of `_validate_steps_data` (required fields are
present by construction of `StepData`; the task kind, the scope shape and
the `last_n_messages` parameter are checked in source order). -/
def validateStep (step : StepData) : Except PyErr Unit := do
  if !validTaskTypes.contains step.task_type then
    throw (.stepValidation ("无效的任务类型: " ++ step.task_type))
  else if !validateScopeOk step.context_scope then
    throw (.stepValidation "无效的上下文范围")
  else
    -- `if scope == 'last_n_messages'`: the param must be a dict holding the
    -- key 'n' (the *value* under 'n' is not inspected)
    match step.context_scope with
    | .str s =>
      if s == "last_n_messages" then
        match step.context_param with
        | some (.dict kvs) =>
          if (pyDictGet kvs "n").isSome then pure ()
          else throw (.stepValidation "使用'last_n_messages'时必须提供context_param参数")
        | _ => throw (.stepValidation "使用'last_n_messages'时必须提供context_param参数")
      else pure ()
    | _ => pure ()

/-- `list(range(1, len(steps_data) + 1))`: the contiguous order range the
validator compares against. -/
def expectedOrders (n : Nat) : List Int :=
  (List.range n).map (fun i => (i : Int) + 1)

/-- `FlowTemplateService._validate_steps_data`: empty list, duplicate order
values and a non-contiguous order range are rejected first, then each step
is checked in turn. -/
def validateStepsData (steps : List StepData) : Except PyErr Unit := do
  if steps.isEmpty then throw (.stepValidation "步骤列表不能为空")
  else
    let orders := steps.map (fun s => s.order)
    if orders.dedup.length != orders.length then
      throw (.stepValidation "步骤序号不能重复")
    else if sortOnInt id orders ≠ expectedOrders orders.length then
      throw (.stepValidation "步骤序号必须从1开始连续递增")
    else
      steps.forM validateStep

/-! ## Shared lemmas -/

/-- On every database-loaded step the raw `logic_config` attribute is text or
`NULL`, never a dict, so `_check_exit_condition` degenerates to `False`: the
`llm_accept_flag` machinery (and its latent uncaught `AttributeError`) is
unreachable. -/
theorem checkExitCondition_eq_false (db : DB) (sess : Session) (step : FlowStep) :
    checkExitCondition db sess step = .ok false := by
  unfold checkExitCondition rawLogicConfig
  cases h : step.logic_config with
  | none => simp [pyDictGet]
  | some s =>
    by_cases hs : s = ""
    · simp [hs, pyDictGet]
    · simp [hs]

/-- Context selection only ever fails with a plain Python error
(`NameError` / `AttributeError`), never with a `SessionError` subclass. -/
theorem selectContextMessages_error_kind (db : DB) (sess : Session) (step : FlowStep)
    (e : PyErr) (h : selectContextMessages db sess step = .error e) :
    e.isSessionError = false := by
  simp only [selectContextMessages] at h
  split at h
  · exact absurd h (by simp)
  split at h
  · exact absurd h (by simp)
  split at h
  · split at h
    · exact absurd h (by simp)
    · cases h; rfl
  split at h
  · split at h <;> (cases h; rfl)
  split at h
  · exact absurd h (by simp)
  iterate 6 (all_goals try split at h)
  all_goals exact absurd h (by simp)

/-- `_build_context` fails only where context selection fails. -/
theorem buildContext_error_kind (db : DB) (sess : Session) (step : FlowStep)
    (e : PyErr) (h : buildContext db sess step = .error e) :
    e.isSessionError = false := by
  cases hs : selectContextMessages db sess step with
  | ok msgs =>
    exact absurd h (by simp [buildContext, bind, Except.bind, hs, pure, Except.pure])
  | error e2 =>
    simp only [buildContext, bind, Except.bind, hs, Except.error.injEq] at h
    subst h
    exact selectContextMessages_error_kind db sess step e2 hs

/-- `_determine_next_step` fails only with a plain Python error (the
`max_loops` comparison `TypeError`). -/
theorem determineNextStep_error_kind (db : DB) (sess : Session) (step : FlowStep)
    (e : PyErr) (h : determineNextStep db sess step = .error e) :
    e.isSessionError = false := by
  simp only [determineNextStep, checkExitCondition_eq_false, bind, Except.bind,
    Bool.false_eq_true, if_false] at h
  iterate 8 (all_goals try split at h)
  all_goals
    first
    | (cases h; exact rfl)
    | exact absurd h (by simp [pure, Except.pure])

/-- `_update_session_after_step_execution` fails only where the next-step
decision fails. -/
theorem updateSession_error_kind (db : DB) (now : Nat) (sess : Session) (step : FlowStep)
    (e : PyErr) (h : updateSessionAfterStepExecution db now sess step = .error e) :
    e.isSessionError = false := by
  simp only [updateSessionAfterStepExecution, bind, Except.bind] at h
  split at h
  all_goals
    first
    | (rename_i e2 hd
       cases h
       exact determineNextStep_error_kind _ _ _ _ hd)
    | (split at h <;> exact absurd h (by simp [pure, Except.pure]))

/-- The commit tail fails only where the session bookkeeping fails. -/
theorem commitStep_error_kind (now : Nat) (db1 : DB) (sess : Session) (st : FlowStep)
    (msg : Message) (e : PyErr) (h : commitStepExecution now db1 sess st msg = .error e) :
    e.isSessionError = false := by
  simp only [commitStepExecution, bind, Except.bind] at h
  split at h
  all_goals
    first
    | (rename_i e2 hd
       cases h
       exact updateSession_error_kind _ _ _ _ _ hd)
    | (split at h <;> exact absurd h (by simp [pure, Except.pure]))
    | exact absurd h (by simp [pure, Except.pure])

/-- Every failure of the `try:` body of `execute_next_step` is either already
a `FlowExecutionError` or not a `SessionError` at all (and hence gets wrapped
into `FlowExecutionError` by the handler). -/
theorem executeBody_error_kind (gen : GenOracle) (now : Nat) (db : DB) (sess : Session)
    (e : PyErr) (h : executeBody gen now db sess = .error e) :
    e.isFlowExecution = true ∨ e.isSessionError = false := by
  simp only [executeBody, bind, Except.bind] at h
  iterate 8 (all_goals try split at h)
  all_goals
    first
    | (cases h; exact Or.inl rfl)
    | (simp [pure, Except.pure] at h
       done)
    | (rename_i e2 hbc
       cases h
       exact Or.inr (buildContext_error_kind _ _ _ _ hbc))
    | exact Or.inr (commitStep_error_kind _ _ _ _ _ _ h)
    | (rename_i hcontra
       simp [pure, Except.pure] at hcontra
       done)

/-! ## Fixtures used by the concrete witnesses and counterexamples -/

/-- A two-step template fixture: `host` asks (`none` scope), `guest` answers
(`last_message` scope), with a loop configuration on the last step. -/
def fxStep1 : FlowStep :=
  { id := 1, flow_template_id := 1, order := 1, speaker_role_ref := "host",
    target_role_ref := Option.none, task_type := "ask_question",
    context_scope := "none", context_param := Option.none,
    logic_config := Option.none, loop_config := Option.none,
    condition_config := Option.none, next_step_id := Option.none,
    description := Option.none }

/-- Second, last step of the fixture template. -/
def fxStep2 : FlowStep :=
  { fxStep1 with
    id := 2
    order := 2
    speaker_role_ref := "guest"
    task_type := "answer_question"
    context_scope := "last_message"
    loop_config := some "\x7b\"enabled\": true, \"max_loops\": 2, \"loop_start_role_ref\": \"host\"\x7d" }

/-- The fixture template row. -/
def fxTemplate : FlowTemplate :=
  { id := 1, name := "辩论流程", topic := Option.none, type := "debate",
    description := Option.none, version := "1.0.0", is_active := true,
    termination_config := Option.none, created_at := 0, updated_at := 0 }

/-- A running session over the fixture template, positioned at step 1. -/
def fxSession : Session :=
  { id := 1, user_id := Option.none, topic := "主题", flow_template_id := 1,
    flow_snapshot := some "{}", roles_snapshot := some "{}",
    status := "running", current_step_id := some 1, current_round := 1,
    executed_steps_count := 0, error_reason := Option.none,
    created_at := 0, updated_at := 0, ended_at := Option.none }

/-- The base fixture store: two roles, the two-step template, one running
session with both roles mapped, no messages or logs yet. -/
def fxDb : DB :=
  { roles := [{ id := 1, name := "host", prompt := "主持人" },
              { id := 2, name := "guest", prompt := "嘉宾" }],
    templates := [fxTemplate],
    steps := [fxStep1, fxStep2],
    sessions := [fxSession],
    sessionRoles := [{ id := 1, session_id := 1, role_ref := "host", role_id := 1 },
                     { id := 2, session_id := 1, role_ref := "guest", role_id := 2 }],
    messages := [], logs := [] }

/-- A generation oracle whose call always fails (the engine then falls back
to the locally built prompt). -/
def fxGenFail : GenOracle := fun _ _ => Option.none

/-- A generation oracle that always answers with a fixed text. -/
def fxGenOk : GenOracle := fun _ _ => some "好的"

/-! ## C2 — `execute_next_step` on a session that is missing or not running -/

/-- C2 (amended): `execute_next_step` on a non-running session fails with a
`FlowExecutionError` (the state-gate violation is *not* reported through the
distinct `InvalidSessionStateError` class that `pause`/`resume`/`start` use),
and on a missing session id with the plain `SessionError` base class (not
`SessionNotFoundError`); in both cases the store is returned unchanged —
zero new `Message` rows, zero new `StepExecutionLog` rows, no session field
changes. -/
theorem c2_gate_errors (gen : GenOracle) (now : Nat) (db : DB) (sid : Nat) :
    (∀ sess, sessionById db sid = some sess → sess.status ≠ "running" →
      executeNextStep gen now db sid =
        .err (.flowExecution ("会话状态为 " ++ sess.status ++ "，无法执行步骤")) db) ∧
    (sessionById db sid = Option.none →
      executeNextStep gen now db sid =
        .err (.sessionError ("会话ID " ++ toString sid ++ " 不存在")) db) := by
  constructor
  · intro sess hfound hne
    unfold executeNextStep
    rw [hfound]
    simp only [bne_iff_ne, ne_eq]
    rw [if_pos hne]
  · intro hnone
    unfold executeNextStep
    rw [hnone]

/-- C2 witness: the amended statement applied to the fixture store with the
session paused, and to a missing session id. -/
theorem c2_gate_errors_witness :
    executeNextStep fxGenOk 10 { fxDb with sessions := [{ fxSession with status := "paused" }] } 1 =
      .err (.flowExecution "会话状态为 paused，无法执行步骤")
        { fxDb with sessions := [{ fxSession with status := "paused" }] } ∧
    executeNextStep fxGenOk 10 fxDb 7 =
      .err (.sessionError "会话ID 7 不存在") fxDb := by
  constructor
  · exact (c2_gate_errors fxGenOk 10
      { fxDb with sessions := [{ fxSession with status := "paused" }] } 1).1
      { fxSession with status := "paused" } rfl (by decide)
  · exact (c2_gate_errors fxGenOk 10 fxDb 7).2 rfl

/-- C2 counterexample: on the paused fixture session the error raised is a
`FlowExecutionError`, not an `InvalidSessionStateError` as the claim states
(`InvalidSessionStateError` exists in the code and is used by
`pause`/`resume`/`start`, but not by `execute_next_step`). -/
theorem c2_invalid_state_counterexample :
    executeNextStep fxGenOk 10 { fxDb with sessions := [{ fxSession with status := "paused" }] } 1 =
      .err (.flowExecution "会话状态为 paused，无法执行步骤")
        { fxDb with sessions := [{ fxSession with status := "paused" }] } ∧
    (PyErr.flowExecution "会话状态为 paused，无法执行步骤").isInvalidSessionState = false ∧
    (PyErr.sessionError "会话ID 7 不存在").isSessionNotFound = false := by
  refine ⟨?_, rfl, rfl⟩
  rfl

/-! ## C3 — failures after the gate roll back and surface as FlowExecutionError -/

/-- C3: when `execute_next_step` is called on an existing *running* session
and fails, the caller-visible store is exactly the pre-call store (the
message insert, the counter/current-step updates and the temporary session
role all roll back — the engine writes no log rows at all), the surfaced
error is a `FlowExecutionError`, and the session is still `running`, so the
call can be retried. -/
theorem c3_rollback_on_failure (gen : GenOracle) (now : Nat) (db : DB) (sid : Nat)
    (sess : Session) (e : PyErr) (dbAfter : DB)
    (hfound : sessionById db sid = some sess)
    (hrun : sess.status = "running")
    (hexec : executeNextStep gen now db sid = .err e dbAfter) :
    dbAfter = db ∧ e.isFlowExecution = true ∧
      (sessionById dbAfter sid).map Session.status = some "running" := by
  simp only [executeNextStep, hfound] at hexec
  rw [if_neg (by simp [hrun])] at hexec
  cases hb : executeBody gen now db sess with
  | ok r =>
    rcases r with ⟨db3, m, i⟩
    rw [hb] at hexec
    exact absurd hexec (by simp)
  | error e2 =>
    rw [hb] at hexec
    cases hexec
    refine ⟨rfl, ?_, ?_⟩
    · by_cases hse : e2.isSessionError = true
      · rw [if_pos hse]
        rcases executeBody_error_kind gen now db sess e2 hb with hk | hk
        · exact hk
        · rw [hk] at hse
          exact absurd hse (by simp)
      · rw [if_neg hse]
        rfl
    · rw [hfound]
      simp [hrun]

/-- C3 witness: in a store whose running session points at a step id that no
longer exists, the call fails with `FlowExecutionError`, the store is
unchanged, and the session is still running. -/
theorem c3_rollback_on_failure_witness :
    { fxDb with sessions := [{ fxSession with current_step_id := some 99 }] } =
      { fxDb with sessions := [{ fxSession with current_step_id := some 99 }] } ∧
    (PyErr.flowExecution "当前步骤ID 99 不存在").isFlowExecution = true ∧
    (sessionById { fxDb with sessions := [{ fxSession with current_step_id := some 99 }] } 1).map
      Session.status = some "running" := by
  exact c3_rollback_on_failure fxGenOk 10
    { fxDb with sessions := [{ fxSession with current_step_id := some 99 }] } 1
    { fxSession with current_step_id := some 99 }
    (.flowExecution "当前步骤ID 99 不存在")
    { fxDb with sessions := [{ fxSession with current_step_id := some 99 }] }
    rfl rfl (by decide)

/-! ## C4 — the `accept-flag` exit condition -/

/-- A step that declares the accept-flag exit policy in its `logic_config`
column, exactly as `logic_config_dict` would surface it. -/
def fxExitStep : FlowStep :=
  { fxStep1 with
    logic_config := some "\x7b\"exit_condition\": \x7b\"type\": \"llm_accept_flag\"\x7d\x7d" }

/-- A message authored by the fixture speaker whose content is the accepting
structured output. -/
def fxAcceptMsg : Message :=
  { id := 1, session_id := 1, speaker_session_role_id := some 1,
    target_session_role_id := Option.none, reply_to_message_id := Option.none,
    content := "\x7b\"accept\": true\x7d", content_summary := Option.none,
    round_index := 1, «section» := Option.none, created_at := 1 }

/-- The store in which the accept-flag policy should fire: the session sits
on the policy-carrying first step and the speaker's latest message carries
`accept: true`. -/
def fxExitDb : DB :=
  { fxDb with
    steps := [fxExitStep, fxStep2]
    messages := [fxAcceptMsg] }

/-- C4: `_check_exit_condition` reads the raw `logic_config` Text column
(line 555) instead of the parsed `logic_config_dict` property, so
`isinstance(logic_config, dict)` is false on every database-loaded step and
the evaluation is constantly `False`: even with the policy declared and the
speaker's latest message parsing to `{"accept": true}`, the condition does
not evaluate true and the session advances linearly instead of terminating.
(The `логic_config_dict` parse — the property the model exposes for exactly
this purpose — does see the declared policy, as the second conjunct shows.) -/
theorem c4_exit_condition_dead :
    (∀ (db : DB) (sess : Session) (step : FlowStep),
      checkExitCondition db sess step = .ok false) ∧
    logicConfigDict fxExitStep =
      [("exit_condition", .dict [("type", .str "llm_accept_flag")])] ∧
    jsonLoads fxAcceptMsg.content = some (.dict [("accept", .bool true)]) ∧
    checkExitCondition fxExitDb fxSession fxExitStep = .ok false ∧
    determineNextStep fxExitDb fxSession fxExitStep = .ok (some 2) := by
  exact ⟨checkExitCondition_eq_false, rfl, rfl,
    checkExitCondition_eq_false fxExitDb fxSession fxExitStep, rfl⟩

/-! ## C5 — loop controller at the last step with `max_loops = 2` -/

/-- The next-step decision at the last ordered step of the template with a
truthy `enabled` and `max_loops = 2`: loop back while the current round is
below 2, otherwise no next step. -/
theorem determineNextStep_last_maxloops_two (db : DB) (sess : Session) (step : FlowStep)
    (ft : FlowTemplate)
    (hft : templateById db sess.flow_template_id = some ft)
    (hlast : (orderedSteps db ft.id).findIdx? (fun st => st.id == step.id) =
      some ((orderedSteps db ft.id).length - 1))
    (hne : orderedSteps db ft.id ≠ [])
    (hen : pyTruthy ((pyDictGet (loopConfigDict step) "enabled").getD (.bool false)) = true)
    (hmax : (pyDictGet (loopConfigDict step) "max_loops").getD (.int 1) = .int 2) :
    determineNextStep db sess step =
      if sess.current_round < 2 then
        .ok (loopBackTarget (orderedSteps db ft.id) (loopConfigDict step))
      else .ok Option.none := by
  have hlen : ¬(((orderedSteps db ft.id).length - 1) + 1 < (orderedSteps db ft.id).length) := by
    cases hL : orderedSteps db ft.id with
    | nil => exact absurd hL hne
    | cons a l => simp
  simp only [determineNextStep, checkExitCondition_eq_false, bind, Except.bind,
    Bool.false_eq_true, if_false, hft, hlast, hmax, hen, if_true, dif_neg hlen]
  split <;> rfl

/-- C5: at the last step in order, with the loop enabled and `max_loops = 2`
(and the exit condition necessarily unmet — it constantly evaluates false),
round 1 loops back to the first step whose speaking-role reference equals
the configured loop-start reference, or to the template's first step when
the reference is absent or matches nothing; round 2 yields no next step, and
the post-step bookkeeping then flips the session from `running` to
`finished` with an end time. -/
theorem c5_loop_controller (db : DB) (sess : Session) (step : FlowStep) (ft : FlowTemplate)
    (hft : templateById db sess.flow_template_id = some ft)
    (hlast : (orderedSteps db ft.id).findIdx? (fun st => st.id == step.id) =
      some ((orderedSteps db ft.id).length - 1))
    (hne : orderedSteps db ft.id ≠ [])
    (hen : pyTruthy ((pyDictGet (loopConfigDict step) "enabled").getD (.bool false)) = true)
    (hmax : (pyDictGet (loopConfigDict step) "max_loops").getD (.int 1) = .int 2) :
    (sess.current_round = 1 →
      (∀ r stStart, pyDictGet (loopConfigDict step) "loop_start_role_ref" = some (.str r) →
        r ≠ "" →
        (orderedSteps db ft.id).find? (fun st => st.speaker_role_ref == r) = some stStart →
        determineNextStep db sess step = .ok (some stStart.id)) ∧
      (∀ r, pyDictGet (loopConfigDict step) "loop_start_role_ref" = some (.str r) →
        r ≠ "" →
        (orderedSteps db ft.id).find? (fun st => st.speaker_role_ref == r) = Option.none →
        determineNextStep db sess step =
          .ok (((orderedSteps db ft.id).head?).map (fun st => st.id))) ∧
      (pyDictGet (loopConfigDict step) "loop_start_role_ref" = Option.none →
        determineNextStep db sess step =
          .ok (((orderedSteps db ft.id).head?).map (fun st => st.id)))) ∧
    (sess.current_round = 2 →
      determineNextStep db sess step = .ok Option.none ∧
      ∀ now, ∃ s2, updateSessionAfterStepExecution db now sess step = .ok s2 ∧
        s2.status = "finished" ∧ s2.ended_at = some now) := by
  have hd := determineNextStep_last_maxloops_two db sess step ft hft hlast hne hen hmax
  constructor
  · intro h1
    rw [h1] at hd
    norm_num at hd
    refine ⟨?_, ?_, ?_⟩
    · intro r stStart hr hrne hfind
      rw [hd]
      unfold loopBackTarget
      rw [hr]
      simp only [Option.getD_some]
      rw [if_pos (by simp [pyTruthy, hrne])]
      simp only [hfind]
    · intro r hr hrne hfind
      rw [hd]
      unfold loopBackTarget
      rw [hr]
      simp only [Option.getD_some]
      rw [if_pos (by simp [pyTruthy, hrne])]
      simp only [hfind]
    · intro hr
      rw [hd]
      unfold loopBackTarget
      rw [hr]
      simp [pyTruthy]
  · intro h2
    constructor
    · rw [hd, h2]
      norm_num
    · intro now
      have hnext : ∀ s2 : Session, s2.flow_template_id = sess.flow_template_id →
          (s2.current_round = sess.current_round ∨
            s2.current_round = sess.current_round + 1) →
          determineNextStep db s2 step = .ok Option.none := by
        intro s2 hs2 hr2
        have hds := determineNextStep_last_maxloops_two db s2 step ft
          (by rw [hs2]; exact hft) hlast hne hen hmax
        rw [hds, if_neg (by rcases hr2 with h | h <;> rw [h, h2] <;> norm_num)]
      by_cases hsr : shouldStartNewRound step
      · simp only [updateSessionAfterStepExecution, bind, Except.bind, hsr, if_true, hnext,
          or_true, true_or, eq_self_iff_true, pure, Except.pure]
        exact ⟨_, rfl, rfl, rfl⟩
      · simp only [updateSessionAfterStepExecution, bind, Except.bind, hsr,
          Bool.false_eq_true, if_false, hnext, or_true, true_or, eq_self_iff_true,
          pure, Except.pure]
        exact ⟨_, rfl, rfl, rfl⟩

/-- C5 witness: in the fixture store, from the last step with
`{"enabled": true, "max_loops": 2, "loop_start_role_ref": "host"}`, round 1
loops back to step 1 (the `host` step) and round 2 ends the flow. -/
theorem c5_loop_controller_witness :
    determineNextStep fxDb fxSession fxStep2 = .ok (some 1) ∧
    determineNextStep fxDb { fxSession with current_round := 2 } fxStep2 = .ok Option.none := by
  constructor
  · exact ((c5_loop_controller fxDb fxSession fxStep2 fxTemplate rfl (by decide)
      (by decide) (by rfl) (by rfl)).1 rfl).1 "host" fxStep1 (by rfl) (by decide)
      (by decide)
  · exact ((c5_loop_controller fxDb { fxSession with current_round := 2 } fxStep2 fxTemplate
      rfl (by decide) (by decide) (by rfl) (by rfl)).2 rfl).1

/-! ## C6 — the `last-N` context scope -/

/-- A step scoped `last_n_messages` with the numeric parameter `n = 3`
stored in its `context_param` column. -/
def fxStepLastN : FlowStep :=
  { fxStep1 with
    context_scope := "last_n_messages"
    context_param := some "\x7b\"n\": 3\x7d" }

/-- Ten messages of session 1 (ids and creation times 1..10), all by the
`host` session role. -/
def fxTenMessages : List Message :=
  (List.range 10).map (fun i =>
    { id := i + 1, session_id := 1, speaker_session_role_id := some 1,
      target_session_role_id := Option.none, reply_to_message_id := Option.none,
      content := "第" ++ toString (i + 1) ++ "条", content_summary := Option.none,
      round_index := 1, «section» := Option.none, created_at := i + 1 })

/-- The store for the `last-N` scenario: the running session sits on the
`last_n_messages` step over a 10-message history. -/
def fxLastNDb : DB :=
  { fxDb with
    steps := [fxStepLastN, fxStep2]
    messages := fxTenMessages }

/-- C6: with a 10-message history and `N = 3`, the Context Selector does not
return the last three messages — it raises.  Line 255 reads
`current_step.context_param.get('n', 5)` on the raw `context_param` `Text`
column; the stored value is a `str` (or `None`), neither of which has
`.get`, so the branch raises `AttributeError`, which `execute_next_step`
rolls back and wraps into `FlowExecutionError`, leaving the store
untouched. -/
theorem c6_last_n_raises :
    selectContextMessages fxLastNDb fxSession fxStepLastN =
      .error (.attributeError "'str' object has no attribute 'get'") ∧
    executeNextStep fxGenOk 11 fxLastNDb 1 =
      .err (.flowExecution "执行步骤失败: 'str' object has no attribute 'get'") fxLastNDb := by
  exact ⟨by rfl, by decide⟩

/-! ## C7 — the `last-round` context scope -/

/-- A step scoped `last_round`. -/
def fxStepLastRound : FlowStep := { fxStep1 with context_scope := "last_round" }

/-- Messages of rounds 1,1,2,2,3 (ids and creation times 1..5). -/
def fxRoundMessages : List Message :=
  [{ id := 1, session_id := 1, speaker_session_role_id := some 1,
     target_session_role_id := Option.none, reply_to_message_id := Option.none,
     content := "一", content_summary := Option.none, round_index := 1,
     «section» := Option.none, created_at := 1 },
   { id := 2, session_id := 1, speaker_session_role_id := some 1,
     target_session_role_id := Option.none, reply_to_message_id := Option.none,
     content := "二", content_summary := Option.none, round_index := 1,
     «section» := Option.none, created_at := 2 },
   { id := 3, session_id := 1, speaker_session_role_id := some 1,
     target_session_role_id := Option.none, reply_to_message_id := Option.none,
     content := "三", content_summary := Option.none, round_index := 2,
     «section» := Option.none, created_at := 3 },
   { id := 4, session_id := 1, speaker_session_role_id := some 1,
     target_session_role_id := Option.none, reply_to_message_id := Option.none,
     content := "四", content_summary := Option.none, round_index := 2,
     «section» := Option.none, created_at := 4 },
   { id := 5, session_id := 1, speaker_session_role_id := some 1,
     target_session_role_id := Option.none, reply_to_message_id := Option.none,
     content := "五", content_summary := Option.none, round_index := 3,
     «section» := Option.none, created_at := 5 }]

/-- The store for the `last-round` scenario, session in round 3. -/
def fxLastRoundDb : DB :=
  { fxDb with
    steps := [fxStepLastRound, fxStep2]
    sessions := [{ fxSession with current_round := 3 }]
    messages := fxRoundMessages }

/-- C7: over rounds `{1,1,2,2,3}` with the current round 3, the selector
does not return the two round-2 messages: the moment a previous-round
message exists, the branch evaluates `and_(...)`, but `and_` is never
imported in `flow_engine_service.py`, so it raises `NameError` (wrapped into
`FlowExecutionError` by `execute_next_step`, store unchanged).  Only the
empty case behaves as claimed: with no message of round `R − 1` the first
query returns nothing and the selector returns `[]` without raising. -/
theorem c7_last_round_raises :
    selectContextMessages fxLastRoundDb { fxSession with current_round := 3 } fxStepLastRound =
      .error (.nameError "name 'and_' is not defined") ∧
    selectContextMessages fxLastRoundDb { fxSession with current_round := 5 } fxStepLastRound =
      .ok [] ∧
    executeNextStep fxGenOk 6 fxLastRoundDb 1 =
      .err (.flowExecution "执行步骤失败: name 'and_' is not defined") fxLastRoundDb := by
  exact ⟨by rfl, by rfl, by decide⟩

/-! ## C1 — do post-creation template edits affect in-flight sessions? -/

/-- A session with its frozen template snapshot erased. -/
def eraseSnap (s : Session) : Session := { s with flow_snapshot := Option.none }

theorem determineNextStep_obs (R : List Role) (T : List FlowTemplate) (St : List FlowStep)
    (S1 S2 : List Session) (SR : List SessionRole) (M : List Message)
    (L : List StepExecutionLog) (s1 s2 : Session) (st : FlowStep)
    (h : eraseSnap s1 = eraseSnap s2) :
    determineNextStep ⟨R, T, St, S1, SR, M, L⟩ s1 st
      = determineNextStep ⟨R, T, St, S2, SR, M, L⟩ s2 st := by
  cases s1
  cases s2
  simp only [eraseSnap] at h
  injection h
  subst_vars
  rfl

theorem buildContext_obs (R : List Role) (T : List FlowTemplate) (St : List FlowStep)
    (S1 S2 : List Session) (SR : List SessionRole) (M : List Message)
    (L : List StepExecutionLog) (s1 s2 : Session) (st : FlowStep)
    (h : eraseSnap s1 = eraseSnap s2) :
    buildContext ⟨R, T, St, S1, SR, M, L⟩ s1 st
      = buildContext ⟨R, T, St, S2, SR, M, L⟩ s2 st := by
  cases s1
  cases s2
  simp only [eraseSnap] at h
  injection h
  subst_vars
  rfl

theorem updateSession_obs (R : List Role) (T : List FlowTemplate) (St : List FlowStep)
    (S1 S2 : List Session) (SR : List SessionRole) (M : List Message)
    (L : List StepExecutionLog) (now : Nat) (s1 s2 : Session) (st : FlowStep)
    (h : eraseSnap s1 = eraseSnap s2) :
    updateSessionAfterStepExecution ⟨R, T, St, S1, SR, M, L⟩ now s1 st
      = (updateSessionAfterStepExecution ⟨R, T, St, S2, SR, M, L⟩ now s2 st).map
          (fun s => { s with flow_snapshot := s1.flow_snapshot }) := by
  cases s1 with
  | mk i u tp fid v1 rs ss cs cr ec er ca ua ea =>
  cases s2 with
  | mk i2 u2 tp2 fid2 v2 rs2 ss2 cs2 cr2 ec2 er2 ca2 ua2 ea2 =>
  simp only [eraseSnap] at h
  injection h
  subst_vars
  simp only [updateSessionAfterStepExecution, bind, Except.bind]
  by_cases hsr : shouldStartNewRound st = true
  · simp only [hsr, if_true]
    rw [determineNextStep_obs R T St S1 S2 SR M L
      ⟨i2, u2, tp2, fid2, v1, rs2, ss2, cs2, cr2 + 1, ec2 + 1, er2, ca2, now, ea2⟩
      ⟨i2, u2, tp2, fid2, v2, rs2, ss2, cs2, cr2 + 1, ec2 + 1, er2, ca2, now, ea2⟩ st rfl]
    cases hd : determineNextStep ⟨R, T, St, S2, SR, M, L⟩
        ⟨i2, u2, tp2, fid2, v2, rs2, ss2, cs2, cr2 + 1, ec2 + 1, er2, ca2, now, ea2⟩ st with
    | ok v => cases v <;> rfl
    | error e => rfl
  · simp only [hsr, Bool.false_eq_true, if_false]
    rw [determineNextStep_obs R T St S1 S2 SR M L
      ⟨i2, u2, tp2, fid2, v1, rs2, ss2, cs2, cr2, ec2 + 1, er2, ca2, now, ea2⟩
      ⟨i2, u2, tp2, fid2, v2, rs2, ss2, cs2, cr2, ec2 + 1, er2, ca2, now, ea2⟩ st rfl]
    cases hd : determineNextStep ⟨R, T, St, S2, SR, M, L⟩
        ⟨i2, u2, tp2, fid2, v2, rs2, ss2, cs2, cr2, ec2 + 1, er2, ca2, now, ea2⟩ st with
    | ok v => cases v <;> rfl
    | error e => rfl

theorem commitStep_obs (R : List Role) (T : List FlowTemplate) (St : List FlowStep)
    (S1 S2 : List Session) (SR : List SessionRole) (M : List Message)
    (L : List StepExecutionLog) (now : Nat) (s1 s2 : Session) (st : FlowStep)
    (msg : Message) (h : eraseSnap s1 = eraseSnap s2) :
    (commitStepExecution now ⟨R, T, St, S1, SR, M, L⟩ s1 st msg).map (fun t => (t.2.1, t.2.2))
      = (commitStepExecution now ⟨R, T, St, S2, SR, M, L⟩ s2 st msg).map
          (fun t => (t.2.1, t.2.2)) := by
  cases s1 with
  | mk i u tp fid v1 rs ss cs cr ec er ca ua ea =>
  cases s2 with
  | mk i2 u2 tp2 fid2 v2 rs2 ss2 cs2 cr2 ec2 er2 ca2 ua2 ea2 =>
  simp only [eraseSnap] at h
  injection h
  subst_vars
  simp only [commitStepExecution, bind, Except.bind]
  rw [updateSession_obs R T St S1 S2 SR (M ++ [msg]) L now
    ⟨i2, u2, tp2, fid2, v1, rs2, ss2, cs2, cr2, ec2, er2, ca2, ua2, ea2⟩
    ⟨i2, u2, tp2, fid2, v2, rs2, ss2, cs2, cr2, ec2, er2, ca2, ua2, ea2⟩ st rfl]
  cases hu : updateSessionAfterStepExecution ⟨R, T, St, S2, SR, M ++ [msg], L⟩ now
      ⟨i2, u2, tp2, fid2, v2, rs2, ss2, cs2, cr2, ec2, er2, ca2, ua2, ea2⟩ st with
  | ok s2new => rfl
  | error e => rfl

theorem bodyTail_obs (now : Nat) (R : List Role) (T : List FlowTemplate) (St : List FlowStep)
    (S1 S2 : List Session) (SRx : List SessionRole) (M : List Message)
    (L : List StepExecutionLog) (s1 s2 : Session) (st : FlowStep)
    (mkMsg : Context → Message) (h : eraseSnap s1 = eraseSnap s2) :
    (Except.bind (buildContext ⟨R, T, St, S1, SRx, M, L⟩ s1 st)
        (fun ctx => commitStepExecution now ⟨R, T, St, S1, SRx, M, L⟩ s1 st (mkMsg ctx))).map
        (fun t => (t.2.1, t.2.2))
      = (Except.bind (buildContext ⟨R, T, St, S2, SRx, M, L⟩ s2 st)
          (fun ctx => commitStepExecution now ⟨R, T, St, S2, SRx, M, L⟩ s2 st (mkMsg ctx))).map
          (fun t => (t.2.1, t.2.2)) := by
  rw [buildContext_obs R T St S1 S2 SRx M L s1 s2 st h]
  cases hbc : buildContext ⟨R, T, St, S2, SRx, M, L⟩ s2 st with
  | error e => rfl
  | ok ctx => exact commitStep_obs R T St S1 S2 SRx M L now s1 s2 st (mkMsg ctx) h

theorem executeBody_obs (gen : GenOracle) (now : Nat) (R : List Role) (T : List FlowTemplate)
    (St : List FlowStep) (S1 S2 : List Session) (SR : List SessionRole) (M : List Message)
    (L : List StepExecutionLog) (s1 s2 : Session) (h : eraseSnap s1 = eraseSnap s2) :
    (executeBody gen now ⟨R, T, St, S1, SR, M, L⟩ s1).map (fun t => (t.2.1, t.2.2))
      = (executeBody gen now ⟨R, T, St, S2, SR, M, L⟩ s2).map (fun t => (t.2.1, t.2.2)) := by
  cases s1 with
  | mk i u tp fid v1 rs ss cs cr ec er ca ua ea =>
  cases s2 with
  | mk i2 u2 tp2 fid2 v2 rs2 ss2 cs2 cr2 ec2 er2 ca2 ua2 ea2 =>
  simp only [eraseSnap] at h
  injection h
  subst_vars
  simp only [executeBody, bind, Except.bind, pure, Except.pure]
  cases cs2 with
  | none => rfl
  | some n =>
    dsimp only
    rw [show stepById ⟨R, T, St, S1, SR, M, L⟩ = stepById ⟨R, T, St, S2, SR, M, L⟩ from rfl]
    cases hst : stepById ⟨R, T, St, S2, SR, M, L⟩ n with
    | none => rfl
    | some st =>
      dsimp only
      rw [show getRoleForExecution ⟨R, T, St, S1, SR, M, L⟩
        = getRoleForExecution ⟨R, T, St, S2, SR, M, L⟩ from rfl]
      cases hrl : getRoleForExecution ⟨R, T, St, S2, SR, M, L⟩ i2 st.speaker_role_ref with
      | none => rfl
      | some role =>
        dsimp only
        rw [show getSessionRoleByRef ⟨R, T, St, S1, SR, M, L⟩
          = getSessionRoleByRef ⟨R, T, St, S2, SR, M, L⟩ from rfl]
        cases hsr2 : getSessionRoleByRef ⟨R, T, St, S2, SR, M, L⟩ i2 st.speaker_role_ref with
        | some sr =>
          dsimp only
          exact bodyTail_obs now R T St S1 S2 _ M L _ _ st _ rfl
        | none =>
          dsimp only
          exact bodyTail_obs now R T St S1 S2 _ M L _ _ st _ rfl

/-- Rewrite every stored session snapshot by `f`, leaving all other state
untouched. -/
def setSessionSnapshots (f : Session → Option String) (db : DB) : DB :=
  { db with sessions := db.sessions.map (fun s => { s with flow_snapshot := f s }) }

/-- The caller-visible outcome of one `execute_next` call: the produced
message with the execution info (which carries the next-step decision and
the final status), or the surfaced error. -/
def execView : ExecResult → Except PyErr (Message × ExecInfo)
  | .ok _ m i => .ok (m, i)
  | .err e _ => .error e

/-- `find?` over a session list commutes with a row-wise rewrite that
preserves the predicate. -/
theorem find?_map_eq (g : Session → Session) (p : Session → Bool) (l : List Session)
    (hp : ∀ s, p (g s) = p s) :
    (l.map g).find? p = (l.find? p).map g := by
  induction l with
  | nil => rfl
  | cons a t ih =>
    cases hpa : p a
    · simp [List.find?, hp, hpa, ih]
    · simp [List.find?, hp, hpa]

/-- C1 (amended, positive part): the frozen `flow_snapshot` stored on the
sessions is never read by `execute_next_step` — rewriting every stored
snapshot arbitrarily changes neither the produced message, nor the
next-step decision, nor the resulting status or error. -/
theorem c1_snapshot_never_read (gen : GenOracle) (now : Nat) (db : DB) (sid : Nat)
    (f : Session → Option String) :
    execView (executeNextStep gen now (setSessionSnapshots f db) sid)
      = execView (executeNextStep gen now db sid) := by
  cases db with
  | mk R T St S SR M L =>
  simp only [setSessionSnapshots, executeNextStep, sessionById]
  rw [find?_map_eq (fun s => { s with flow_snapshot := f s }) (fun s => s.id == sid) S
    (fun s => rfl)]
  cases hs : S.find? (fun s => s.id == sid) with
  | none => rfl
  | some sess =>
    dsimp only [Option.map]
    by_cases hrun : (sess.status != "running") = true
    · rw [if_pos hrun, if_pos hrun]
      rfl
    · rw [if_neg hrun, if_neg hrun]
      have hb := executeBody_obs gen now R T St
        (S.map (fun s => { s with flow_snapshot := f s })) S SR M L
        { sess with flow_snapshot := f sess } sess rfl
      cases hbl : executeBody gen now
          ⟨R, T, St, S.map (fun s => { s with flow_snapshot := f s }), SR, M, L⟩
          { sess with flow_snapshot := f sess } with
      | ok r =>
        cases hbr : executeBody gen now ⟨R, T, St, S, SR, M, L⟩ sess with
        | ok r2 =>
          rw [hbl, hbr] at hb
          rcases r with ⟨d1, m1, i1⟩
          rcases r2 with ⟨d2, m2, i2⟩
          simp only [Except.map] at hb
          cases hb
          rfl
        | error e2 =>
          rw [hbl, hbr] at hb
          exact absurd hb (by simp [Except.map])
      | error e1 =>
        cases hbr : executeBody gen now ⟨R, T, St, S, SR, M, L⟩ sess with
        | ok r2 =>
          rw [hbl, hbr] at hb
          exact absurd hb (by simp [Except.map])
        | error e2 =>
          rw [hbl, hbr] at hb
          simp only [Except.map, Except.error.injEq] at hb
          rw [hb]
          rfl

/-- The fixture first step after a post-creation edit of its task kind. -/
def fxEditedStep1 : FlowStep := { fxStep1 with task_type := "summarize" }

/-- The fixture store after the template edit: identical to `fxDb` in every
table except `steps`. -/
def fxDbEdited : DB := { fxDb with steps := [fxEditedStep1, fxStep2] }

/-- The section of the produced message, when the call succeeded. -/
def execSection : ExecResult → Option String
  | .ok _ m _ => m.«section»
  | .err _ _ => Option.none

/-- The round reported in the execution info, when the call succeeded. -/
def execRound : ExecResult → Option Int
  | .ok _ _ i => some i.current_round
  | .err _ _ => Option.none

/-- C1 counterexample: two stores that agree on every table — including the
sessions and their frozen snapshots — and differ only in a post-creation
edit to one live `FlowStep` (its task kind): `execute_next_step` produces a
message with a different section and a different round in its execution
info, so the outcome *does* depend on template edits made after the session
was created. -/
theorem c1_template_edit_changes_outcome :
    fxDb.sessions = fxDbEdited.sessions ∧
    fxDb.roles = fxDbEdited.roles ∧
    fxDb.templates = fxDbEdited.templates ∧
    fxDb.sessionRoles = fxDbEdited.sessionRoles ∧
    fxDb.messages = fxDbEdited.messages ∧
    fxDb.logs = fxDbEdited.logs ∧
    execSection (executeNextStep fxGenOk 10 fxDb 1) = some "提问阶段" ∧
    execSection (executeNextStep fxGenOk 10 fxDbEdited 1) = some "总结阶段" ∧
    execRound (executeNextStep fxGenOk 10 fxDb 1) = some 1 ∧
    execRound (executeNextStep fxGenOk 10 fxDbEdited 1) = some 2 := by
  exact ⟨rfl, rfl, rfl, rfl, rfl, rfl, by rfl, by rfl, by rfl, by rfl⟩

/-! ## C8 — `create_branch_session` (fork) -/

/-- How one copied message relates to its original: it belongs to the new
session, its speaker is remapped through `role_ref` onto the new session's
own `SessionRole` rows, its timestamp is the copy time, and every other
payload field is carried over verbatim. -/
def branchCopyRel (db : DB) (newRoles : List SessionRole) (newSid now : Nat)
    (m m' : Message) : Prop :=
  m'.session_id = newSid ∧
  (∃ i sr nsr, m.speaker_session_role_id = some i ∧
    sessionRoleById db i = some sr ∧
    newRoles.find? (fun r => r.role_ref == sr.role_ref) = some nsr ∧
    m'.speaker_session_role_id = some nsr.id) ∧
  m'.target_session_role_id = m.target_session_role_id ∧
  m'.reply_to_message_id = m.reply_to_message_id ∧
  m'.content = m.content ∧
  m'.content_summary = m.content_summary ∧
  m'.round_index = m.round_index ∧
  m'.«section» = m.«section» ∧
  m'.created_at = now

/-- A successful copy-loop iteration appends exactly one message, related to
the original by `branchCopyRel`. -/
theorem copyBranchMessage_ok (db : DB) (newRoles : List SessionRole)
    (newSid baseMsgId now : Nat) (acc : List Message) (m : Message)
    (acc' : List Message)
    (h : copyBranchMessage db newRoles newSid baseMsgId now acc m = .ok acc') :
    ∃ nm, acc' = acc ++ [nm] ∧ branchCopyRel db newRoles newSid now m nm := by
  cases hsp : m.speaker_session_role_id with
  | none =>
    simp [copyBranchMessage, hsp, bind, Except.bind,
      throw, throwThe, MonadExceptOf.throw] at h
  | some i =>
    cases hsr : sessionRoleById db i with
    | none =>
      simp [copyBranchMessage, hsp, hsr, bind, Except.bind, pure, Except.pure,
        throw, throwThe, MonadExceptOf.throw] at h
    | some sr =>
      cases hfind : newRoles.find? (fun r => r.role_ref == sr.role_ref) with
      | none =>
        simp [copyBranchMessage, hsp, hsr, hfind, bind, Except.bind,
          pure, Except.pure, throw, throwThe, MonadExceptOf.throw] at h
      | some nsr =>
        simp only [copyBranchMessage, hsp, hsr, hfind, bind, Except.bind,
          pure, Except.pure, Except.ok.injEq] at h
        exact ⟨_, h.symm, rfl, ⟨i, sr, nsr, hsp, hsr, hfind, rfl⟩,
          rfl, rfl, rfl, rfl, rfl, rfl, rfl⟩

/-- A successful run of the whole copy loop produces, after the accumulator
it started from, one `branchCopyRel`-related copy per original message, in
order. -/
theorem copyFold_ok (db : DB) (newRoles : List SessionRole)
    (newSid baseMsgId now : Nat) :
    ∀ (l acc out : List Message),
    l.foldlM (copyBranchMessage db newRoles newSid baseMsgId now) acc = .ok out →
    ∃ tl, out = acc ++ tl ∧ List.Forall₂ (branchCopyRel db newRoles newSid now) l tl := by
  intro l
  induction l with
  | nil =>
    intro acc out h
    simp only [List.foldlM_nil, pure, Except.pure, Except.ok.injEq] at h
    exact ⟨[], by simp [h], List.Forall₂.nil⟩
  | cons m rest ih =>
    intro acc out h
    rw [List.foldlM_cons] at h
    cases hstep : copyBranchMessage db newRoles newSid baseMsgId now acc m with
    | error e =>
      rw [hstep] at h
      simp [bind, Except.bind] at h
    | ok acc' =>
      rw [hstep] at h
      simp only [bind, Except.bind] at h
      obtain ⟨nm, hacc', hrel⟩ := copyBranchMessage_ok _ _ _ _ _ _ _ _ hstep
      obtain ⟨tl, hout, hall⟩ := ih acc' out h
      exact ⟨nm :: tl, by simp [hout, hacc'], List.Forall₂.cons hrel hall⟩

/-- C8 (amended): branching behaves as claimed except for the error class of
a bad cut point.  (1) A missing source session fails with
`SessionNotFoundError` and persists nothing.  (2) A cut message that is
missing or belongs to another session also persists nothing, but the
`SessionNotFoundError` raised inside the `try:` block is swallowed by the
unconditional `except Exception` and resurfaces as the generic
`SessionError` wrapper — not NotFound.  (3) When the source exists, the cut
message belongs to it, the snapshot round-trip binds, the copy loop
resolves every speaker, and the fresh session id is unused by existing
logs, the call succeeds with a fresh `not_started` session whose message
rows are exactly the `branchCopyRel` copies of the source's prefix
`id ≤ cut`, ordered by creation time, and which has zero execution-log
entries. -/
theorem c8_fork_branch (now : Nat) (db : DB) (sid cutId : Nat)
    (topic : Option String) :
    (sessionById db sid = Option.none →
      createBranchSession now db sid cutId topic =
        .err (.sessionNotFound ("原会话ID " ++ toString sid ++ " 不存在")) db) ∧
    (∀ orig, sessionById db sid = some orig →
      (∀ m, messageById db cutId = some m → m.session_id ≠ sid) →
      createBranchSession now db sid cutId topic =
        .err (.sessionError ("创建分支会话失败: " ++
          ("分支点消息ID " ++ toString cutId ++ " 不存在或不属于该会话"))) db) ∧
    (∀ orig m fs rs copied, sessionById db sid = some orig →
      messageById db cutId = some m → m.session_id = sid →
      snapshotSetter (flowSnapshotDict orig) = .ok fs →
      snapshotSetter (rolesSnapshotDict orig) = .ok rs →
      (branchPrefix db sid cutId).foldlM
        (copyBranchMessage db
          (newBranchRoles db sid (nextId (db.sessions.map (fun s => s.id))))
          (nextId (db.sessions.map (fun s => s.id)))
          (nextId (db.messages.map (fun mm => mm.id))) now) [] = .ok copied →
      (∀ l ∈ db.logs, l.session_id ≠ nextId (db.sessions.map (fun s => s.id))) →
      ∃ db' ns,
        createBranchSession now db sid cutId topic = .ok db' ns ∧
        ns.id = nextId (db.sessions.map (fun s => s.id)) ∧
        ns.status = "not_started" ∧
        ns.current_round = 0 ∧
        ns.executed_steps_count = 0 ∧
        ns.current_step_id = Option.none ∧
        db'.sessions = db.sessions ++ [ns] ∧
        db'.messages = db.messages ++ copied ∧
        List.Forall₂ (branchCopyRel db (newBranchRoles db sid ns.id) ns.id now)
          (branchPrefix db sid cutId) copied ∧
        logsOf db' ns.id = []) := by
  refine ⟨?_, ?_, ?_⟩
  · intro hnone
    simp only [createBranchSession, hnone]
  · intro orig hfound hbad
    have hoid : orig.id = sid := by
      have := List.find?_some hfound
      simpa using this
    simp only [createBranchSession, hfound, branchBody, bind, Except.bind]
    cases hm : messageById db cutId with
    | none =>
      simp [throw, throwThe, MonadExceptOf.throw, PyErr.msg]
    | some m =>
      have : (m.session_id == orig.id) = false := by
        simp [hoid, hbad m hm]
      simp [this, throw, throwThe, MonadExceptOf.throw, PyErr.msg]
  · intro orig m fs rs copied hfound hm hms hfs hrs hfold hlogs
    have hoid : orig.id = sid := by
      have := List.find?_some hfound
      simpa using this
    subst hoid
    have hmsid : (m.session_id == orig.id) = true := by simp [hms]
    simp only [createBranchSession, hfound, branchBody, bind, Except.bind, hm,
      hmsid, if_true, pure, Except.pure, hfs, hrs, hfold]
    refine ⟨_, _, rfl, rfl, rfl, rfl, rfl, rfl, rfl, rfl, ?_, ?_⟩
    · obtain ⟨tl, hout, hall⟩ :=
        copyFold_ok db _ _ _ now (branchPrefix db orig.id cutId) [] copied hfold
      simpa [hout] using hall
    · simp only [logsOf]
      rw [List.filter_eq_nil]
      intro l hl
      simp [hlogs l hl]

/-- C8 witness: the success part applied to the round fixture — forking
session 1 at message 3 copies the three oldest messages onto the new
session 2, remapped to its fresh `host` role, with no log entries. -/
theorem c8_fork_branch_witness :
    ∃ copied,
      (branchPrefix fxLastRoundDb 1 3).foldlM
        (copyBranchMessage fxLastRoundDb
          (newBranchRoles fxLastRoundDb 1
            (nextId (fxLastRoundDb.sessions.map (fun s => s.id))))
          (nextId (fxLastRoundDb.sessions.map (fun s => s.id)))
          (nextId (fxLastRoundDb.messages.map (fun mm => mm.id))) 7) [] =
        .ok copied ∧
      ∃ db' ns,
        createBranchSession 7 fxLastRoundDb 1 3 Option.none = .ok db' ns ∧
        ns.id = nextId (fxLastRoundDb.sessions.map (fun s => s.id)) ∧
        ns.status = "not_started" ∧
        ns.current_round = 0 ∧
        ns.executed_steps_count = 0 ∧
        ns.current_step_id = Option.none ∧
        db'.sessions = fxLastRoundDb.sessions ++ [ns] ∧
        db'.messages = fxLastRoundDb.messages ++ copied ∧
        List.Forall₂
          (branchCopyRel fxLastRoundDb (newBranchRoles fxLastRoundDb 1 ns.id) ns.id 7)
          (branchPrefix fxLastRoundDb 1 3) copied ∧
        logsOf db' ns.id = [] := by
  refine ⟨_, rfl, ?_⟩
  exact (c8_fork_branch 7 fxLastRoundDb 1 3 Option.none).2.2
    { fxSession with current_round := 3 }
    { id := 3, session_id := 1, speaker_session_role_id := some 1,
      target_session_role_id := Option.none, reply_to_message_id := Option.none,
      content := "三", content_summary := Option.none, round_index := 2,
      «section» := Option.none, created_at := 3 }
    (some "{}") (some "{}") _ (by rfl) (by rfl) (by rfl) (by rfl) (by rfl) rfl
    (by intro l hl; simp [fxLastRoundDb, fxDb] at hl)

/-- C8 counterexample: on the base fixture, forking session 1 at the
nonexistent message 99 does *not* fail with NotFound — the
`SessionNotFoundError` raised for the bad cut point is caught by the
blanket `except Exception` and re-raised as the generic `SessionError`
wrapper. -/
theorem c8_wrapped_notfound_counterexample :
    createBranchSession 5 fxDb 1 99 Option.none =
      .err (.sessionError ("创建分支会话失败: " ++
        ("分支点消息ID " ++ toString (99 : Nat) ++ " 不存在或不属于该会话"))) fxDb ∧
    (PyErr.sessionError ("创建分支会话失败: " ++
        ("分支点消息ID " ++ toString (99 : Nat) ++ " 不存在或不属于该会话"))).isSessionNotFound
      = false := by
  exact ⟨by rfl, by rfl⟩

/-! ## C9 — `_validate_steps_data` -/

/-- The claim's reading of the `last_n_messages` parameter check: the
parameter must carry a *numeric* `n`.  The code, by contrast, only tests
membership of the key `n` (`'n' not in step['context_param']`) and never
looks at the value. -/
def lastNNumericOk (st : StepData) : Bool :=
  match st.context_scope with
  | .str s =>
    if s == "last_n_messages" then
      match st.context_param with
      | some (.dict kvs) =>
        match pyDictGet kvs "n" with
        | some (.int _) => true
        | _ => false
      | _ => false
    else true
  | _ => true

/-- `forM` over `Except` succeeds exactly when every element passes. -/
theorem forM_ok_iff {α : Type} (f : α → Except PyErr Unit) (l : List α) :
    l.forM f = .ok () ↔ ∀ a ∈ l, f a = .ok () := by
  induction l with
  | nil => simp [List.forM, pure, Except.pure]
  | cons a as ih =>
    rw [show (a :: as).forM f = (f a >>= fun _ => as.forM f) from rfl]
    cases hfa : f a with
    | error e => simp [hfa, bind, Except.bind, List.mem_cons]
    | ok u =>
      cases u
      simp [hfa, bind, Except.bind, List.mem_cons, ih]

/-- A syntactically valid first step for the validator fixtures. -/
def fxStepData1 : StepData :=
  { order := 1, speaker_role_ref := "host", target_role_ref := Option.none,
    task_type := "ask_question", context_scope := .str "none",
    context_param := Option.none, logic_config := Option.none,
    next_step_id := Option.none, description := Option.none }

/-- A valid second step. -/
def fxStepData2 : StepData :=
  { fxStepData1 with
    order := 2
    speaker_role_ref := "guest"
    task_type := "answer_question"
    context_scope := .str "last_message" }

/-- A `last_n_messages` step whose parameter holds a *non-numeric* `n`. -/
def fxStepDataBadN : StepData :=
  { fxStepData1 with
    context_scope := .str "last_n_messages"
    context_param := some (.dict [("n", .str "三")]) }

/-- C9 (amended): `_validate_steps_data` accepts a step list exactly when
it is non-empty, its order values carry no duplicate, the orders sorted
ascending are exactly `1..N`, and every step passes the per-step check —
whose `last_n_messages` clause only requires `context_param` to be a dict
*containing the key* `n` (a non-numeric value passes), and whose
role-filter clause requires a non-empty list of non-blank strings.
Consequently every accepted template has order values exactly `1..N`. -/
theorem c9_step_validation (steps : List StepData) :
    (validateStepsData steps = .ok () ↔
      (steps.isEmpty = false ∧
       (steps.map (fun s => s.order)).dedup.length = steps.length ∧
       sortOnInt id (steps.map (fun s => s.order)) = expectedOrders steps.length ∧
       ∀ st ∈ steps, validateStep st = .ok ())) ∧
    (validateStepsData steps = .ok () →
      sortOnInt id (steps.map (fun s => s.order)) = expectedOrders steps.length) := by
  have key : validateStepsData steps = .ok () ↔
      (steps.isEmpty = false ∧
       (steps.map (fun s => s.order)).dedup.length = steps.length ∧
       sortOnInt id (steps.map (fun s => s.order)) = expectedOrders steps.length ∧
       ∀ st ∈ steps, validateStep st = .ok ()) := by
    simp only [validateStepsData, List.length_map]
    by_cases h1 : steps.isEmpty
    · simp [h1, throw, throwThe, MonadExceptOf.throw]
    · by_cases h2 : (steps.map (fun s => s.order)).dedup.length = steps.length
      · by_cases h3 : sortOnInt id (steps.map (fun s => s.order)) =
            expectedOrders steps.length
        · simp [h1, h2, h3, bne_iff_ne, throw, throwThe, MonadExceptOf.throw,
            forM_ok_iff]
        · simp [h1, h2, h3, bne_iff_ne, throw, throwThe, MonadExceptOf.throw]
      · simp [h1, h2, bne_iff_ne, throw, throwThe, MonadExceptOf.throw]
  exact ⟨key, fun h => (key.mp h).2.2.1⟩

/-- C9 witness: the two-step fixture list is accepted and its sorted order
values are exactly `[1, 2]`. -/
theorem c9_step_validation_witness :
    validateStepsData [fxStepData1, fxStepData2] = .ok () ∧
    sortOnInt id ([fxStepData1, fxStepData2].map (fun s => s.order)) =
      expectedOrders ([fxStepData1, fxStepData2] : List StepData).length :=
  ⟨by rfl, (c9_step_validation [fxStepData1, fxStepData2]).2 (by rfl)⟩

/-- C9 counterexample: a `last_n_messages` step whose parameter carries the
non-numeric value `"三"` under `n` is accepted by the validator — the claim
says a last-N scope lacking its *numeric* parameter is rejected. -/
theorem c9_nonnumeric_n_counterexample :
    validateStepsData [fxStepDataBadN] = .ok () ∧
    lastNNumericOk fxStepDataBadN = false := by
  exact ⟨by rfl, by rfl⟩

/-! ## C10 — role-mapping validation at session creation -/

/-- `_validate_role_mappings` either passes or raises a `RoleMappingError`;
no other error class escapes it. -/
theorem validateRoleMappings_cases (db : DB) (ft : FlowTemplate)
    (rm : List (String × Nat)) :
    validateRoleMappings db ft rm = .ok () ∨
    ∃ msg, validateRoleMappings db ft rm = .error (.roleMapping msg) := by
  simp only [validateRoleMappings]
  split
  · exact Or.inr ⟨_, rfl⟩
  · split
    · exact Or.inr ⟨_, rfl⟩
    · exact Or.inl (by simp [pure, Except.pure])

/-- `_validate_role_mappings` passes exactly when the mapping covers every
speaker/target reference of the template's steps and every mapped role id
exists. -/
theorem validateRoleMappings_iff (db : DB) (ft : FlowTemplate)
    (rm : List (String × Nat)) :
    validateRoleMappings db ft rm = .ok () ↔
      ((∀ r ∈ templateRoleRefs db ft.id, rm.any (fun kv => kv.1 == r) = true) ∧
       ∀ kv ∈ rm, (roleById db kv.2).isSome = true) := by
  simp only [validateRoleMappings]
  by_cases hmiss : (templateRoleRefs db ft.id).filter
      (fun r => !(rm.any (fun kv => kv.1 == r))) = []
  · by_cases hex : rm.find? (fun kv => (roleById db kv.2).isNone) = Option.none
    · constructor
      · intro _
        refine ⟨?_, ?_⟩
        · intro r hr
          have h := List.filter_eq_nil_iff.mp hmiss r hr
          simpa using h
        · intro kv hkv
          have h := List.find?_eq_none.mp hex kv hkv
          simpa [Option.isSome_iff_ne_none] using h
      · intro _
        simp [hmiss, hex, pure, Except.pure]
    · constructor
      · intro h
        exfalso
        rw [if_neg (by simp [hmiss])] at h
        rcases hfind : rm.find? (fun kv => (roleById db kv.2).isNone) with _ | kv
        · exact hex hfind
        · rw [hfind] at h
          simp [throw, throwThe, MonadExceptOf.throw] at h
      · rintro ⟨h1, h2⟩
        exfalso
        rcases hfind : rm.find? (fun kv => (roleById db kv.2).isNone) with _ | kv
        · exact hex hfind
        · have hmem := List.mem_of_find?_eq_some hfind
          have hpred := List.find?_some hfind
          have := h2 kv hmem
          simp [Option.isNone_iff_eq_none] at hpred
          simp [hpred] at this
  · constructor
    · intro h
      exfalso
      rw [if_pos (by simp [List.isEmpty_iff, hmiss])] at h
      simp [throw, throwThe, MonadExceptOf.throw] at h
    · rintro ⟨h1, h2⟩
      exact absurd (List.filter_eq_nil_iff.mpr (fun r hr => by simp [h1 r hr])) hmiss

/-- C10: a supplied role mapping must cover every speaker/target reference
of the template's steps and map only to existing role ids — otherwise
`create_session` fails with a `RoleMappingError` and the store is returned
unchanged (no Session, SessionRole or snapshot persisted).  Omitting the
mapping is legal: the session is created with an empty roles snapshot and
no SessionRole rows.  A valid supplied mapping persists one SessionRole
row per entry. -/
theorem c10_role_mapping_validation (now : Nat) (db : DB)
    (data : SessionCreateData) (ft : FlowTemplate)
    (hft : templateById db data.flow_template_id = some ft) :
    (∀ rm, data.role_mappings = some rm →
      validateRoleMappings db ft rm ≠ .ok () →
      ∃ msg, createSession now db data = .err (.roleMapping msg) db) ∧
    (∀ rm, validateRoleMappings db ft rm = .ok () ↔
      ((∀ r ∈ templateRoleRefs db ft.id, rm.any (fun kv => kv.1 == r) = true) ∧
       ∀ kv ∈ rm, (roleById db kv.2).isSome = true)) ∧
    (data.role_mappings = Option.none →
      ∃ db' s, createSession now db data = .ok db' s ∧
        s.status = "not_started" ∧
        s.roles_snapshot = some (jsonDumps (.dict [])) ∧
        db'.sessions = db.sessions ++ [s] ∧
        db'.sessionRoles = db.sessionRoles) ∧
    (∀ rm, data.role_mappings = some rm →
      validateRoleMappings db ft rm = .ok () →
      ∃ db' s, createSession now db data = .ok db' s ∧
        s.status = "not_started" ∧
        db'.sessions = db.sessions ++ [s] ∧
        db'.sessionRoles = db.sessionRoles ++ rm.enum.map (fun p =>
          { id := nextId (db.sessionRoles.map (fun sr => sr.id)) + p.1
            session_id := s.id
            role_ref := p.2.1
            role_id := p.2.2 })) := by
  refine ⟨?_, fun rm => validateRoleMappings_iff db ft rm, ?_, ?_⟩
  · intro rm hrm hbad
    rcases validateRoleMappings_cases db ft rm with hok | ⟨msg, herr⟩
    · exact absurd hok hbad
    · refine ⟨msg, ?_⟩
      simp [createSession, createSessionBody, bind, Except.bind, hft, hrm,
        herr, pure, Except.pure, PyErr.isSessionError]
  · intro hrm
    simp only [createSession, createSessionBody, bind, Except.bind, hft, hrm,
      pure, Except.pure]
    exact ⟨_, _, rfl, rfl, rfl, rfl, by simp⟩
  · intro rm hrm hok
    simp only [createSession, createSessionBody, bind, Except.bind, hft, hrm,
      hok, pure, Except.pure]
    exact ⟨_, _, rfl, rfl, rfl, rfl⟩

/-- C10 witness: on the base fixture template, the partial mapping covering
only `host` is rejected with a `RoleMappingError` and persists nothing;
omitting the mapping creates the session with no SessionRole rows; the full
mapping `host ↦ 1, guest ↦ 2` passes validation. -/
theorem c10_role_mapping_validation_witness :
    (∃ msg, createSession 3 fxDb
        { user_id := Option.none, topic := "新会话", flow_template_id := 1,
          role_mappings := some [("host", 1)] } =
      .err (.roleMapping msg) fxDb) ∧
    (∃ db' s, createSession 3 fxDb
        { user_id := Option.none, topic := "新会话", flow_template_id := 1,
          role_mappings := Option.none } = .ok db' s ∧
      s.status = "not_started" ∧
      s.roles_snapshot = some (jsonDumps (.dict [])) ∧
      db'.sessions = fxDb.sessions ++ [s] ∧
      db'.sessionRoles = fxDb.sessionRoles) ∧
    validateRoleMappings fxDb fxTemplate [("host", 1), ("guest", 2)] = .ok () := by
  refine ⟨?_, ?_, ?_⟩
  · exact (c10_role_mapping_validation 3 fxDb
      { user_id := Option.none, topic := "新会话", flow_template_id := 1,
        role_mappings := some [("host", 1)] } fxTemplate (by rfl)).1
      [("host", 1)] rfl (by
        intro h
        rw [show validateRoleMappings fxDb fxTemplate [("host", 1)] =
          Except.error (PyErr.roleMapping "缺少角色映射: guest") from rfl] at h
        exact Except.noConfusion h)
  · exact (c10_role_mapping_validation 3 fxDb
      { user_id := Option.none, topic := "新会话", flow_template_id := 1,
        role_mappings := Option.none } fxTemplate (by rfl)).2.2.1 rfl
  · exact ((c10_role_mapping_validation 3 fxDb
      { user_id := Option.none, topic := "新会话", flow_template_id := 1,
        role_mappings := some [("host", 1), ("guest", 2)] } fxTemplate
      (by rfl)).2.1 [("host", 1), ("guest", 2)]).mpr (by decide)

end MultiRoleChat
